import Mathlib

set_option maxHeartbeats 1000000

/-!
Verification development for the cat-plus synthesis converter
(`src/synth-converter/src/graph/graph_builder.rs`).

The mapper walks a parsed batch record and inserts RDF triples into an
in-memory graph (`sophia`'s `LightGraph` in the source).  The embedding
below models the term language, the triple store and the identity
generator, and transcribes every `GraphBuilder` method of the source
file.  Machinery that the repository uses but that is not part of the
source tree (the `graph/utils` identity generator, the
`graph/namespaces` prefix table, the `parser/actions` record types and
the store's insert contract) is modelled from the specification and
marked as such in the doc comments.
-/

namespace Synth

/-- RDF term: the three kinds the mapper uses (sophia `SimpleTerm`
restricted to named nodes, blank nodes and typed literals). -/
inductive Term where
  | namedNode (iri : String)
  | blankNode (id : Nat)
  | literal (lex : String) (datatype : String)
deriving DecidableEq, Repr

/-- Test whether a term is a literal. -/
def Term.isLiteralT : Term → Bool
  | .literal _ _ => true
  | _ => false

/-- Test whether a term is a named node. -/
def Term.isNamed : Term → Bool
  | .namedNode _ => true
  | _ => false

/-- One RDF triple. -/
structure Triple where
  subj : Term
  pred : Term
  obj : Term
deriving DecidableEq, Repr

/-- Modelled from the spec: error kinds of §7 that the mapper can
surface (the only one reachable through the embedded store contract is
`invalidTriplePosition`). -/
inductive GraphError where
  | invalidTriplePosition
deriving DecidableEq, Repr

/-- Modelled from the spec: the `graph/namespaces` module is not in the
source tree; §4.2 describes a fixed prefix → base-IRI table.  Each
namespace function resolves a local name against its base. -/
def catBase : String := "http://example.org/cat/"

/-- Base IRI of the `schema` namespace (modelled, see `catBase`). -/
def schemaBase : String := "http://schema.org/"

/-- Base IRI of the `allores` namespace (modelled, see `catBase`). -/
def alloresBase : String := "http://purl.allotrope.org/ontologies/result/"

/-- Base IRI of the `alloqual` namespace (modelled, see `catBase`). -/
def alloqualBase : String := "http://purl.allotrope.org/ontologies/quality/"

/-- Base IRI of the `qudt` namespace (modelled, see `catBase`). -/
def qudtBase : String := "http://qudt.org/schema/qudt/"

/-- Base IRI of the `purl` namespace (modelled, see `catBase`). -/
def purlBase : String := "http://purl.org/dc/terms/"

/-- Base IRI of the `obo` namespace (modelled, see `catBase`). -/
def oboBase : String := "http://purl.obolibrary.org/obo/"

/-- Base IRI of the `rdf` namespace (modelled, see `catBase`). -/
def rdfBase : String := "http://www.w3.org/1999/02/22-rdf-syntax-ns#"

/-- Resolve a local name in the `cat` namespace (source: `CAT.get`). -/
def CAT (local_name : String) : Term := .namedNode (catBase ++ local_name)

/-- Resolve a local name in the `schema` namespace (source: `SCHEMA.get`). -/
def SCHEMA (local_name : String) : Term := .namedNode (schemaBase ++ local_name)

/-- Resolve a local name in the `allores` namespace (source: `ALLORES.get`). -/
def ALLORES (local_name : String) : Term := .namedNode (alloresBase ++ local_name)

/-- Resolve a local name in the `alloqual` namespace (source: `ALLOQUAL.get`). -/
def ALLOQUAL (local_name : String) : Term := .namedNode (alloqualBase ++ local_name)

/-- Resolve a local name in the `qudt` namespace (source: `QUDT.get`). -/
def QUDT (local_name : String) : Term := .namedNode (qudtBase ++ local_name)

/-- Resolve a local name in the `purl` namespace (source: `PURL.get`). -/
def PURL (local_name : String) : Term := .namedNode (purlBase ++ local_name)

/-- Resolve a local name in the `obo` namespace (source: `OBO.get`). -/
def OBO (local_name : String) : Term := .namedNode (oboBase ++ local_name)

/-- Resolve a local name in the `rdf` namespace (source: `RDF.get`). -/
def RDF (local_name : String) : Term := .namedNode (rdfBase ++ local_name)

/-- Datatype IRI for `xsd:string` (plain string objects in sophia). -/
def xsdString : String := "http://www.w3.org/2001/XMLSchema#string"

/-- Datatype IRI for `xsd:dateTime` (source: `date_time * xsd::dateTime`). -/
def xsdDateTime : String := "http://www.w3.org/2001/XMLSchema#dateTime"

/-- Datatype IRI for `xsd:double` (numeric observation values). -/
def xsdDouble : String := "http://www.w3.org/2001/XMLSchema#double"

/-- String literal object, as produced by inserting a Rust `&str`. -/
def strLit (s : String) : Term := .literal s xsdString

/-- Numeric literal object, as produced by inserting an observation value. -/
def numLit (v : Int) : Term := .literal (toString v) xsdDouble

/-- Modelled from the spec: the `parser/actions` record types are not in
the source tree; fields and their optionality are transcribed from their
uses in `graph_builder.rs`.  A measured quantity: unit string plus
numeric value. -/
structure Observation where
  unit : String
  value : Int
deriving DecidableEq, Repr

/-- Container identification data (fields per use in
`insert_container_properties`). -/
structure ContainerInfo where
  container_id : String
  container_barcode : String
deriving DecidableEq, Repr

/-- Container position: a position label plus a measured quantity. -/
structure ContainerPosition where
  position : String
  quantity : Observation
deriving DecidableEq, Repr

/-- Chemical record (fields per use in `insert_a_chemical`). -/
structure Chemical where
  chemical_id : String
  chemical_name : String
  cas_number : String
  smiles : String
  molecular_mass : Observation
deriving DecidableEq, Repr

/-- Sample item (fields per use in `insert_a_sample`). -/
structure SampleItem where
  role : String
  sample_id : String
  physical_state : String
  internal_bar_code : String
  expected_datum : Option Observation
  has_chemical : Chemical
deriving DecidableEq, Repr

/-- Sample (fields per use in `insert_samples`). -/
structure Sample where
  container : ContainerInfo
  expected_datum : Observation
  vial_type : String
  vial_id : String
  role : String
  has_sample : List SampleItem
deriving DecidableEq, Repr

/-- Modelled from the spec: the `ActionName` enum lives in
`parser/actions`, outside the source tree.  The dispatch in
`insert_action_type` names `AddAction` and `setTemperatureAction` and
has a wildcard arm, so the enum has further variants; they are collapsed
into `otherAction` carrying the unmodeled tag (§9: a tagged-variant type
with an explicit unrecognized variant). -/
inductive ActionName where
  | AddAction
  | setTemperatureAction
  | otherAction (tag : String)
deriving DecidableEq, Repr

/-- Action record (fields per use in `insert_an_action`). -/
structure Action where
  action_name : ActionName
  start_time : String
  ending_time : String
  method_name : String
  equipment_name : String
  sub_equipment_name : String
  container_info : Option ContainerInfo
  temperature_shaker : Option Observation
  temperature_tumble_stirrer : Option Observation
  speed_shaker : Option Observation
  dispense_type : Option String
  dispense_state : Option String
  has_container_position_and_quantity : Option (List ContainerPosition)
  has_sample : Option Sample
deriving DecidableEq, Repr

/-- Batch record (fields per use in `insert_a_batch`). -/
structure Batch where
  batch_id : String
  actions : List Action
deriving DecidableEq, Repr

/-- The graph builder state: the triple store plus the per-conversion
counter of the identity generator (the Rust counter lives in
`graph/utils`, outside the source tree; §4.3 and §9 of the spec scope it
per conversion). -/
structure GraphBuilder where
  graph : List Triple
  counter : Nat
deriving DecidableEq, Repr

/-- Source `GraphBuilder::new`: always returns `Ok` with an empty graph
even though its return type is a `Result`. -/
def GraphBuilder.new : Except GraphError GraphBuilder :=
  .ok { graph := [], counter := 0 }

/-- Modelled from the spec: the store (`sophia`'s `LightGraph`) is a
third-party collaborator; §4.4 gives its contract — `insert` appends a
triple, failing with `InvalidTriplePosition` if the subject is a literal
or the predicate is not a named node, and performs no deduplication
(multiset semantics). -/
def GraphBuilder.insert (g : GraphBuilder) (s p o : Term) :
    Except GraphError GraphBuilder :=
  if s.isLiteralT || !p.isNamed then .error .invalidTriplePosition
  else .ok { g with graph := g.graph ++ [⟨s, p, o⟩] }

/-- IRI produced by the identity generator for the `c`-th minted entity. -/
def synthUri (c : Nat) : String :=
  "http://example.org/resource/" ++ toString c

/-- Modelled from the spec: `generate_bnode_term` (in `graph/utils`,
outside the source tree) mints a fresh blank node from the
per-conversion counter (§4.3 `new_blank_node`). -/
def GraphBuilder.generate_bnode_term (g : GraphBuilder) : Term × GraphBuilder :=
  (.blankNode g.counter, { g with counter := g.counter + 1 })

/-- Modelled from the spec: `generate_uri_term` (in `graph/utils`,
outside the source tree) mints a fresh named node whose IRI is derived
from the per-conversion counter (§4.3 `new_named_node`). -/
def GraphBuilder.generate_uri_term (g : GraphBuilder) : Term × GraphBuilder :=
  (.namedNode (synthUri g.counter), { g with counter := g.counter + 1 })

/-- Source `insert_a_date_time`: one triple whose object is the verbatim
input string typed with `xsd:dateTime`. -/
def GraphBuilder.insert_a_date_time (g : GraphBuilder) (subject predicate : Term)
    (date_time : String) : Except GraphError GraphBuilder :=
  g.insert subject predicate (.literal date_time xsdDateTime)

/-- Source `insert_container_properties`: container id and barcode
literals on the given subject. -/
def GraphBuilder.insert_container_properties (g : GraphBuilder) (subject : Term)
    (container_info : ContainerInfo) : Except GraphError GraphBuilder := do
  let g ← g.insert subject (CAT "containerID") (strLit container_info.container_id)
  g.insert subject (CAT "containerBarcode") (strLit container_info.container_barcode)

/-- Source `insert_an_observation`: mints a fresh blank node, links it
from the subject through the given property, and gives it a unit triple
and a value triple. -/
def GraphBuilder.insert_an_observation (g : GraphBuilder) (subject property_term : Term)
    (observation : Observation) : Except GraphError GraphBuilder := do
  let (observation_term, g) := g.generate_bnode_term
  let g ← g.insert subject property_term observation_term
  let g ← g.insert observation_term (QUDT "unit") (strLit observation.unit)
  g.insert observation_term (QUDT "value") (numLit observation.value)

/-- Source `insert_a_container_position`: a fresh blank node typed
`ContainerPositionAndQuantity` with a position literal and a quantity
observation. -/
def GraphBuilder.insert_a_container_position (g : GraphBuilder) (subject : Term)
    (container_position : ContainerPosition) : Except GraphError GraphBuilder := do
  let (container_position_term, g) := g.generate_bnode_term
  let g ← g.insert subject (CAT "hasContainerPositionAndQuantity") container_position_term
  let g ← g.insert container_position_term (RDF "type") (CAT "ContainerPositionAndQuantity")
  let g ← g.insert container_position_term (ALLORES "AFR_0002240")
    (strLit container_position.position)
  g.insert_an_observation container_position_term (QUDT "quantity")
    container_position.quantity

/-- Source `insert_a_chemical`: mints a fresh URI term (a named node,
not a blank node) and attaches the chemical's scalar fields. -/
def GraphBuilder.insert_a_chemical (g : GraphBuilder) (subject : Term)
    (chemical : Chemical) : Except GraphError GraphBuilder := do
  let (chemical_term, g) := g.generate_uri_term
  let g ← g.insert subject (CAT "has_chemical") chemical_term
  let g ← g.insert chemical_term (RDF "type") (OBO "CHEBI_25367")
  let g ← g.insert chemical_term (PURL "identifier") (strLit chemical.chemical_id)
  let g ← g.insert chemical_term (CAT "chemicalName") (strLit chemical.chemical_name)
  let g ← g.insert chemical_term (CAT "casNumber") (strLit chemical.cas_number)
  let g ← g.insert chemical_term (ALLORES "AFR_0002295") (strLit chemical.smiles)
  g.insert chemical_term (ALLORES "AFR_0002294")
    (strLit (toString chemical.molecular_mass.value))

/-- Transcription of a Rust `if let Some(x) = opt` guard around an
observation insertion: the body runs only when the field is present. -/
def GraphBuilder.opt_observation (g : GraphBuilder) (subject property_term : Term) :
    Option Observation → Except GraphError GraphBuilder
  | some observation => g.insert_an_observation subject property_term observation
  | none => .ok g

/-- Transcription of a Rust `if let Some(x) = opt` guard around a
container-properties insertion. -/
def GraphBuilder.opt_container_info (g : GraphBuilder) (subject : Term) :
    Option ContainerInfo → Except GraphError GraphBuilder
  | some container_info => g.insert_container_properties subject container_info
  | none => .ok g

/-- Transcription of a Rust `if let Some(x) = opt` guard around a plain
string-literal insertion. -/
def GraphBuilder.opt_literal (g : GraphBuilder) (subject predicate : Term) :
    Option String → Except GraphError GraphBuilder
  | some value => g.insert subject predicate (strLit value)
  | none => .ok g

/-- Source `insert_a_sample`: one sample item.  Note the source inserts
the `role` triple twice. -/
def GraphBuilder.insert_a_sample (g : GraphBuilder) (subject : Term)
    (sample_item : SampleItem) : Except GraphError GraphBuilder := do
  let (sample_item_term, g) := g.generate_bnode_term
  let g ← g.insert sample_item_term (RDF "type") (CAT "Sample")
  let g ← g.insert subject (CAT "hasSample") sample_item_term
  let g ← g.insert sample_item_term (CAT "role") (strLit sample_item.role)
  let g ← g.opt_observation sample_item_term (CAT "expectedDatum") sample_item.expected_datum
  let g ← g.insert sample_item_term (CAT "role") (strLit sample_item.role)
  let g ← g.insert sample_item_term (PURL "identifier") (strLit sample_item.sample_id)
  let g ← g.insert sample_item_term (ALLOQUAL "AFQ_0000111")
    (strLit sample_item.physical_state)
  let g ← g.insert sample_item_term (CAT "internalBarCode")
    (strLit sample_item.internal_bar_code)
  g.insert_a_chemical sample_item_term sample_item.has_chemical

/-- The `for sample_item in &sample.has_sample` loop of source
`insert_samples`, hoisted into a named recursion. -/
def GraphBuilder.insert_sample_items (g : GraphBuilder) (subject : Term) :
    List SampleItem → Except GraphError GraphBuilder
  | [] => .ok g
  | sample_item :: rest => do
      let g ← g.insert_a_sample subject sample_item
      g.insert_sample_items subject rest

/-- Source `insert_samples`: the sample blank node with its container
properties, expected datum observation, scalar fields and nested items. -/
def GraphBuilder.insert_samples (g : GraphBuilder) (subject : Term)
    (sample : Sample) : Except GraphError GraphBuilder := do
  let (sample_term, g) := g.generate_bnode_term
  let g ← g.insert subject (CAT "hasSample") sample_term
  let g ← g.insert sample_term (RDF "type") (CAT "Sample")
  let g ← g.insert_container_properties sample_term sample.container
  let g ← g.insert_an_observation sample_term (CAT "expectedDatum") sample.expected_datum
  let g ← g.insert sample_term (CAT "vialShape") (strLit sample.vial_type)
  let g ← g.insert sample_term (ALLORES "AFR_0002464") (strLit sample.vial_id)
  let g ← g.insert sample_term (CAT "role") (strLit sample.role)
  g.insert_sample_items sample_term sample.has_sample

/-- Source `insert_action_type`: closed dispatch on the action-name tag;
every tag that is not `AddAction` or `setTemperatureAction` falls
through the wildcard arm to the generic `allores:AFRE_0000001` class. -/
def GraphBuilder.insert_action_type (g : GraphBuilder) (subject : Term)
    (action : Action) : Except GraphError GraphBuilder :=
  match action.action_name with
  | .AddAction => g.insert subject (RDF "type") (CAT "AddAction")
  | .setTemperatureAction => g.insert subject (RDF "type") (CAT "setTemperatureAction")
  | _ => g.insert subject (RDF "type") (ALLORES "AFRE_0000001")

/-- The `for container_position in container_positions` loop of source
`insert_an_action`, hoisted into a named recursion. -/
def GraphBuilder.insert_container_positions (g : GraphBuilder) (subject : Term) :
    List ContainerPosition → Except GraphError GraphBuilder
  | [] => .ok g
  | container_position :: rest => do
      let g ← g.insert_a_container_position subject container_position
      g.insert_container_positions subject rest

/-- Transcription of a Rust `if let Some(x) = opt` guard around the
container-position loop. -/
def GraphBuilder.opt_container_positions (g : GraphBuilder) (subject : Term) :
    Option (List ContainerPosition) → Except GraphError GraphBuilder
  | some container_positions => g.insert_container_positions subject container_positions
  | none => .ok g

/-- Transcription of a Rust `if let Some(x) = opt` guard around the
sample insertion. -/
def GraphBuilder.opt_samples (g : GraphBuilder) (subject : Term) :
    Option Sample → Except GraphError GraphBuilder
  | some sample => g.insert_samples subject sample
  | none => .ok g

/-- Source `insert_an_action`: mints a fresh URI term (a named node) for
the action, links it to the batch through `cat:hasBatch` (action as
subject, batch as object), emits the mandatory scalar fields, then each
optional field only when present, and finally the type assertion. -/
def GraphBuilder.insert_an_action (g : GraphBuilder) (subject : Term)
    (action : Action) : Except GraphError GraphBuilder := do
  let (action_term, g) := g.generate_uri_term
  let g ← g.insert action_term (CAT "hasBatch") subject
  let g ← g.insert_a_date_time action_term (ALLORES "AFX_0000622") action.start_time
  let g ← g.insert_a_date_time action_term (ALLORES "AFR_0002423") action.ending_time
  let g ← g.insert action_term (ALLORES "AFR_0001606") (strLit action.method_name)
  let g ← g.insert action_term (ALLORES "AFR_0001723") (strLit action.equipment_name)
  let g ← g.insert action_term (CAT "localEquipmentName") (strLit action.sub_equipment_name)
  let g ← g.opt_container_info action_term action.container_info
  let g ← g.opt_observation action_term (CAT "temperatureShakerShape") action.temperature_shaker
  let g ← g.opt_observation action_term (CAT "temperatureTumbleStirrerShape")
    action.temperature_tumble_stirrer
  let g ← g.opt_observation action_term (CAT "speedInRPM") action.speed_shaker
  let g ← g.opt_literal action_term (CAT "dispenseType") action.dispense_type
  let g ← g.opt_literal action_term (ALLOQUAL "AFQ_0000111") action.dispense_state
  let g ← g.opt_container_positions action_term action.has_container_position_and_quantity
  let g ← g.opt_samples action_term action.has_sample
  g.insert_action_type action_term action

/-- The `for action in &batch.actions` loop of source `insert_a_batch`,
hoisted into a named recursion. -/
def GraphBuilder.insert_actions (g : GraphBuilder) (subject : Term) :
    List Action → Except GraphError GraphBuilder
  | [] => .ok g
  | action :: rest => do
      let g ← g.insert_an_action subject action
      g.insert_actions subject rest

/-- Source `insert_a_batch`: mints the batch blank node, types and names
it, then maps every action against it. -/
def GraphBuilder.insert_a_batch (g : GraphBuilder) (batch : Batch) :
    Except GraphError GraphBuilder := do
  let (batch_term, g) := g.generate_bnode_term
  let g ← g.insert batch_term (RDF "type") (CAT "Batch")
  let g ← g.insert batch_term (SCHEMA "name") (strLit batch.batch_id)
  g.insert_actions batch_term batch.actions

/-!
Derived normal forms: for every builder method `F`, a pure function
computing the exact list of triples `F` appends and the number of
identifiers it mints.  Each is proved equal to the corresponding method
below (the `_nf` lemmas), so all further reasoning is about these pure
lists.
-/

/-- Number of identifiers minted for an optional observation. -/
def oMints : Option Observation → Nat
  | some _ => 1
  | none => 0

/-- Triples appended by `insert_an_observation`. -/
def obs_triples (c : Nat) (s p : Term) (o : Observation) : List Triple :=
  [⟨s, p, .blankNode c⟩,
   ⟨.blankNode c, QUDT "unit", strLit o.unit⟩,
   ⟨.blankNode c, QUDT "value", numLit o.value⟩]

/-- Triples appended by `opt_observation`. -/
def optObs_triples (c : Nat) (s p : Term) : Option Observation → List Triple
  | some o => obs_triples c s p o
  | none => []

/-- Triples appended by `insert_container_properties`. -/
def cprops_triples (s : Term) (ci : ContainerInfo) : List Triple :=
  [⟨s, CAT "containerID", strLit ci.container_id⟩,
   ⟨s, CAT "containerBarcode", strLit ci.container_barcode⟩]

/-- Triples appended by `opt_container_info`. -/
def optCprops_triples (s : Term) : Option ContainerInfo → List Triple
  | some ci => cprops_triples s ci
  | none => []

/-- Triples appended by `opt_literal`. -/
def optLit_triples (s p : Term) : Option String → List Triple
  | some v => [⟨s, p, strLit v⟩]
  | none => []

/-- Triples appended by `insert_a_container_position`. -/
def cpos_triples (c : Nat) (s : Term) (cp : ContainerPosition) : List Triple :=
  [⟨s, CAT "hasContainerPositionAndQuantity", .blankNode c⟩,
   ⟨.blankNode c, RDF "type", CAT "ContainerPositionAndQuantity"⟩,
   ⟨.blankNode c, ALLORES "AFR_0002240", strLit cp.position⟩]
  ++ obs_triples (c + 1) (.blankNode c) (QUDT "quantity") cp.quantity

/-- Triples appended by `insert_container_positions`. -/
def cposList_triples (c : Nat) (s : Term) : List ContainerPosition → List Triple
  | [] => []
  | cp :: rest => cpos_triples c s cp ++ cposList_triples (c + 2) s rest

/-- Identifiers minted by `insert_container_positions`. -/
def cposList_mints : List ContainerPosition → Nat
  | [] => 0
  | _ :: rest => 2 + cposList_mints rest

/-- Triples appended by `opt_container_positions`. -/
def optCposList_triples (c : Nat) (s : Term) : Option (List ContainerPosition) → List Triple
  | some l => cposList_triples c s l
  | none => []

/-- Identifiers minted by `opt_container_positions`. -/
def oCposMints : Option (List ContainerPosition) → Nat
  | some l => cposList_mints l
  | none => 0

/-- Triples appended by `insert_a_chemical` (note the chemical node is a
named node, not a blank node). -/
def chem_triples (c : Nat) (s : Term) (ch : Chemical) : List Triple :=
  [⟨s, CAT "has_chemical", .namedNode (synthUri c)⟩,
   ⟨.namedNode (synthUri c), RDF "type", OBO "CHEBI_25367"⟩,
   ⟨.namedNode (synthUri c), PURL "identifier", strLit ch.chemical_id⟩,
   ⟨.namedNode (synthUri c), CAT "chemicalName", strLit ch.chemical_name⟩,
   ⟨.namedNode (synthUri c), CAT "casNumber", strLit ch.cas_number⟩,
   ⟨.namedNode (synthUri c), ALLORES "AFR_0002295", strLit ch.smiles⟩,
   ⟨.namedNode (synthUri c), ALLORES "AFR_0002294", strLit (toString ch.molecular_mass.value)⟩]

/-- Identifiers minted by `insert_a_sample`. -/
def item_mints (si : SampleItem) : Nat := 2 + oMints si.expected_datum

/-- Triples appended by `insert_a_sample`. -/
def item_triples (c : Nat) (s : Term) (si : SampleItem) : List Triple :=
  [⟨.blankNode c, RDF "type", CAT "Sample"⟩,
   ⟨s, CAT "hasSample", .blankNode c⟩,
   ⟨.blankNode c, CAT "role", strLit si.role⟩]
  ++ optObs_triples (c + 1) (.blankNode c) (CAT "expectedDatum") si.expected_datum
  ++ [⟨.blankNode c, CAT "role", strLit si.role⟩,
      ⟨.blankNode c, PURL "identifier", strLit si.sample_id⟩,
      ⟨.blankNode c, ALLOQUAL "AFQ_0000111", strLit si.physical_state⟩,
      ⟨.blankNode c, CAT "internalBarCode", strLit si.internal_bar_code⟩]
  ++ chem_triples (c + 1 + oMints si.expected_datum) (.blankNode c) si.has_chemical

/-- Triples appended by `insert_sample_items`. -/
def items_triples (c : Nat) (s : Term) : List SampleItem → List Triple
  | [] => []
  | si :: rest => item_triples c s si ++ items_triples (c + item_mints si) s rest

/-- Identifiers minted by `insert_sample_items`. -/
def items_mints : List SampleItem → Nat
  | [] => 0
  | si :: rest => item_mints si + items_mints rest

/-- Identifiers minted by `insert_samples`. -/
def sample_mints (smp : Sample) : Nat := 2 + items_mints smp.has_sample

/-- Triples appended by `insert_samples`. -/
def sample_triples (c : Nat) (s : Term) (smp : Sample) : List Triple :=
  [⟨s, CAT "hasSample", .blankNode c⟩,
   ⟨.blankNode c, RDF "type", CAT "Sample"⟩]
  ++ cprops_triples (.blankNode c) smp.container
  ++ obs_triples (c + 1) (.blankNode c) (CAT "expectedDatum") smp.expected_datum
  ++ [⟨.blankNode c, CAT "vialShape", strLit smp.vial_type⟩,
      ⟨.blankNode c, ALLORES "AFR_0002464", strLit smp.vial_id⟩,
      ⟨.blankNode c, CAT "role", strLit smp.role⟩]
  ++ items_triples (c + 2) (.blankNode c) smp.has_sample

/-- Identifiers minted by `opt_samples`. -/
def oSampleMints : Option Sample → Nat
  | some smp => sample_mints smp
  | none => 0

/-- Triples appended by `opt_samples`. -/
def optSample_triples (c : Nat) (s : Term) : Option Sample → List Triple
  | some smp => sample_triples c s smp
  | none => []

/-- Ontology class chosen by the dispatch of `insert_action_type`. -/
def actionClass (a : Action) : Term :=
  match a.action_name with
  | .AddAction => CAT "AddAction"
  | .setTemperatureAction => CAT "setTemperatureAction"
  | _ => ALLORES "AFRE_0000001"

/-- Identifiers minted by `insert_an_action`. -/
def action_mints (a : Action) : Nat :=
  1 + oMints a.temperature_shaker + oMints a.temperature_tumble_stirrer
    + oMints a.speed_shaker + oCposMints a.has_container_position_and_quantity
    + oSampleMints a.has_sample

/-- Triples appended by `insert_an_action`. -/
def action_triples (c : Nat) (s : Term) (a : Action) : List Triple :=
  [⟨.namedNode (synthUri c), CAT "hasBatch", s⟩,
   ⟨.namedNode (synthUri c), ALLORES "AFX_0000622", .literal a.start_time xsdDateTime⟩,
   ⟨.namedNode (synthUri c), ALLORES "AFR_0002423", .literal a.ending_time xsdDateTime⟩,
   ⟨.namedNode (synthUri c), ALLORES "AFR_0001606", strLit a.method_name⟩,
   ⟨.namedNode (synthUri c), ALLORES "AFR_0001723", strLit a.equipment_name⟩,
   ⟨.namedNode (synthUri c), CAT "localEquipmentName", strLit a.sub_equipment_name⟩]
  ++ optCprops_triples (.namedNode (synthUri c)) a.container_info
  ++ optObs_triples (c + 1) (.namedNode (synthUri c)) (CAT "temperatureShakerShape")
      a.temperature_shaker
  ++ optObs_triples (c + 1 + oMints a.temperature_shaker) (.namedNode (synthUri c))
      (CAT "temperatureTumbleStirrerShape") a.temperature_tumble_stirrer
  ++ optObs_triples (c + 1 + oMints a.temperature_shaker + oMints a.temperature_tumble_stirrer)
      (.namedNode (synthUri c)) (CAT "speedInRPM") a.speed_shaker
  ++ optLit_triples (.namedNode (synthUri c)) (CAT "dispenseType") a.dispense_type
  ++ optLit_triples (.namedNode (synthUri c)) (ALLOQUAL "AFQ_0000111") a.dispense_state
  ++ optCposList_triples
      (c + 1 + oMints a.temperature_shaker + oMints a.temperature_tumble_stirrer
        + oMints a.speed_shaker)
      (.namedNode (synthUri c)) a.has_container_position_and_quantity
  ++ optSample_triples
      (c + 1 + oMints a.temperature_shaker + oMints a.temperature_tumble_stirrer
        + oMints a.speed_shaker + oCposMints a.has_container_position_and_quantity)
      (.namedNode (synthUri c)) a.has_sample
  ++ [⟨.namedNode (synthUri c), RDF "type", actionClass a⟩]

/-- Triples appended by `insert_actions`. -/
def actions_triples (c : Nat) (s : Term) : List Action → List Triple
  | [] => []
  | a :: rest => action_triples c s a ++ actions_triples (c + action_mints a) s rest

/-- Identifiers minted by `insert_actions`. -/
def actions_mints : List Action → Nat
  | [] => 0
  | a :: rest => action_mints a + actions_mints rest

/-- Identifiers minted by `insert_a_batch`. -/
def batch_mints (b : Batch) : Nat := 1 + actions_mints b.actions

/-- Triples appended by `insert_a_batch`. -/
def batch_triples (c : Nat) (b : Batch) : List Triple :=
  [⟨.blankNode c, RDF "type", CAT "Batch"⟩,
   ⟨.blankNode c, SCHEMA "name", strLit b.batch_id⟩]
  ++ actions_triples (c + 1) (.blankNode c) b.actions

/-! Concrete records used in the closed scenario theorems. -/

/-- Concrete batch of the C2 scenario: id `"B-1"`, one `AddAction` with
the given start time, no container info and no samples; the remaining
mandatory string fields are empty. -/
def batchB1 : Batch :=
  { batch_id := "B-1",
    actions := [{ action_name := .AddAction,
                  start_time := "2024-01-01T00:00:00Z",
                  ending_time := "", method_name := "", equipment_name := "",
                  sub_equipment_name := "", container_info := none,
                  temperature_shaker := none, temperature_tumble_stirrer := none,
                  speed_shaker := none, dispense_type := none, dispense_state := none,
                  has_container_position_and_quantity := none, has_sample := none }] }

/-- Full conversion of `batchB1` from a fresh builder. -/
def batchB1run : Except GraphError GraphBuilder :=
  GraphBuilder.new >>= fun g => g.insert_a_batch batchB1

/-- The nine triples the conversion of `batchB1` actually produces. -/
def batchB1triples : List Triple :=
  [⟨.blankNode 0, RDF "type", CAT "Batch"⟩,
   ⟨.blankNode 0, SCHEMA "name", strLit "B-1"⟩,
   ⟨.namedNode (synthUri 1), CAT "hasBatch", .blankNode 0⟩,
   ⟨.namedNode (synthUri 1), ALLORES "AFX_0000622",
     .literal "2024-01-01T00:00:00Z" xsdDateTime⟩,
   ⟨.namedNode (synthUri 1), ALLORES "AFR_0002423", .literal "" xsdDateTime⟩,
   ⟨.namedNode (synthUri 1), ALLORES "AFR_0001606", strLit ""⟩,
   ⟨.namedNode (synthUri 1), ALLORES "AFR_0001723", strLit ""⟩,
   ⟨.namedNode (synthUri 1), CAT "localEquipmentName", strLit ""⟩,
   ⟨.namedNode (synthUri 1), RDF "type", CAT "AddAction"⟩]

/-- Concrete action of the C4 counterexample: `dispense_state` is
absent, but a sample with one item is present, and the item's mandatory
`physical_state` uses the same predicate (`alloqual:AFQ_0000111`) the
dispense-state field uses. -/
def actionC4 : Action :=
  { action_name := .otherAction "x", start_time := "", ending_time := "",
    method_name := "", equipment_name := "", sub_equipment_name := "",
    container_info := none, temperature_shaker := none,
    temperature_tumble_stirrer := none, speed_shaker := none, dispense_type := none,
    dispense_state := none, has_container_position_and_quantity := none,
    has_sample := some
      { container := ⟨"c", "b"⟩, expected_datum := ⟨"u", 1⟩, vial_type := "v",
        vial_id := "i", role := "r",
        has_sample := [{ role := "r2", sample_id := "s1", physical_state := "solid",
                         internal_bar_code := "ib", expected_datum := none,
                         has_chemical := { chemical_id := "ch", chemical_name := "n",
                                           cas_number := "cas", smiles := "sm",
                                           molecular_mass := ⟨"g/mol", 2⟩ } }] } }

/-- Concrete batch wrapping `actionC4`. -/
def batchC4 : Batch := { batch_id := "B-2", actions := [actionC4] }

/-- Full conversion of `batchC4` from a fresh builder. -/
def batchC4run : Except GraphError GraphBuilder :=
  GraphBuilder.new >>= fun g => g.insert_a_batch batchC4

/-- Graph produced by `batchC4run`. -/
def batchC4graph : List Triple :=
  match batchC4run with
  | .ok g => g.graph
  | .error _ => []

/-- Concrete action used by the C4 witness: temperature shaker present,
dispense type absent. -/
def actionW : Action :=
  { action_name := .AddAction, start_time := "t0", ending_time := "t1",
    method_name := "m", equipment_name := "e", sub_equipment_name := "se",
    container_info := none, temperature_shaker := some ⟨"degC", 20⟩,
    temperature_tumble_stirrer := none, speed_shaker := none, dispense_type := none,
    dispense_state := none, has_container_position_and_quantity := none,
    has_sample := none }

/-! Blank-node accounting for the identity claims: the set of blank-node
ids occurring in a triple list, the expected id set minted by each
mapping step, and the expected distinct-blank-node counts. -/

/-- Blank-node id of a term, as a singleton set. -/
def termBlankIds : Term → Finset Nat
  | .blankNode k => {k}
  | _ => ∅

/-- Blank-node ids of one triple. -/
def tripleBlankIds (t : Triple) : Finset Nat :=
  termBlankIds t.subj ∪ termBlankIds t.pred ∪ termBlankIds t.obj

/-- Blank-node ids occurring in a triple list. -/
def blankIds : List Triple → Finset Nat
  | [] => ∅
  | t :: rest => tripleBlankIds t ∪ blankIds rest

/-- Blank ids minted by an optional observation. -/
def optObsS (c : Nat) : Option Observation → Finset Nat
  | some _ => {c}
  | none => ∅

/-- Blank ids minted by a container-position list. -/
def cposListS (c : Nat) : List ContainerPosition → Finset Nat
  | [] => ∅
  | _ :: rest => {c, c + 1} ∪ cposListS (c + 2) rest

/-- Blank ids minted by an optional container-position list. -/
def optCposS (c : Nat) : Option (List ContainerPosition) → Finset Nat
  | some l => cposListS c l
  | none => ∅

/-- Blank ids minted by a sample item. -/
def itemS (c : Nat) (si : SampleItem) : Finset Nat :=
  {c} ∪ optObsS (c + 1) si.expected_datum

/-- Blank ids minted by a sample-item list. -/
def itemsS (c : Nat) : List SampleItem → Finset Nat
  | [] => ∅
  | si :: rest => itemS c si ∪ itemsS (c + item_mints si) rest

/-- Blank ids minted by a sample. -/
def sampleS (c : Nat) (smp : Sample) : Finset Nat :=
  {c, c + 1} ∪ itemsS (c + 2) smp.has_sample

/-- Blank ids minted by an optional sample. -/
def optSampleS (c : Nat) : Option Sample → Finset Nat
  | some smp => sampleS c smp
  | none => ∅

/-- Blank ids minted by an action (the action node itself and the
chemical nodes are named, so they contribute none). -/
def actionS (c : Nat) (a : Action) : Finset Nat :=
  optObsS (c + 1) a.temperature_shaker
  ∪ optObsS (c + 1 + oMints a.temperature_shaker) a.temperature_tumble_stirrer
  ∪ optObsS (c + 1 + oMints a.temperature_shaker
      + oMints a.temperature_tumble_stirrer) a.speed_shaker
  ∪ optCposS (c + 1 + oMints a.temperature_shaker
      + oMints a.temperature_tumble_stirrer + oMints a.speed_shaker)
      a.has_container_position_and_quantity
  ∪ optSampleS (c + 1 + oMints a.temperature_shaker
      + oMints a.temperature_tumble_stirrer + oMints a.speed_shaker
      + oCposMints a.has_container_position_and_quantity) a.has_sample

/-- Blank ids minted by an action list. -/
def actionsS (c : Nat) : List Action → Finset Nat
  | [] => ∅
  | a :: rest => actionS c a ∪ actionsS (c + action_mints a) rest

/-- Expected distinct-blank-node count of a sample item. -/
def item_blanks (si : SampleItem) : Nat := 1 + oMints si.expected_datum

/-- Expected distinct-blank-node count of a sample-item list. -/
def items_blanks : List SampleItem → Nat
  | [] => 0
  | si :: rest => item_blanks si + items_blanks rest

/-- Expected distinct-blank-node count of a sample. -/
def sample_blanks (smp : Sample) : Nat := 2 + items_blanks smp.has_sample

/-- Expected distinct-blank-node count of an optional sample. -/
def oSampleBlanks : Option Sample → Nat
  | some smp => sample_blanks smp
  | none => 0

/-- Expected distinct-blank-node count of an action's subtrees. -/
def action_blanks (a : Action) : Nat :=
  oMints a.temperature_shaker + oMints a.temperature_tumble_stirrer
    + oMints a.speed_shaker + oCposMints a.has_container_position_and_quantity
    + oSampleBlanks a.has_sample

/-- Expected distinct-blank-node count of an action list. -/
def actions_blanks : List Action → Nat
  | [] => 0
  | a :: rest => action_blanks a + actions_blanks rest

/-- Expected distinct-blank-node count of a whole conversion: the batch
node plus one per sample level, per observation and per container
position. -/
def batch_blanks (b : Batch) : Nat := 1 + actions_blanks b.actions

/-- Blank-node count asserted by the original claim: one per action, one
per sample level, one per chemical, one per observation, one per
container position (the batch node is not counted). -/
def itemClaimCount (si : SampleItem) : Nat := 2 + oMints si.expected_datum

/-- Claimed count over a sample-item list. -/
def itemsClaimCount : List SampleItem → Nat
  | [] => 0
  | si :: rest => itemClaimCount si + itemsClaimCount rest

/-- Claimed count of an action per the original claim. -/
def actionClaimCount (a : Action) : Nat :=
  1 + oMints a.temperature_shaker + oMints a.temperature_tumble_stirrer
    + oMints a.speed_shaker + 2 * (match a.has_container_position_and_quantity with
      | some l => l.length
      | none => 0)
    + (match a.has_sample with
      | some smp => 2 + itemsClaimCount smp.has_sample
      | none => 0)

/-- Claimed count of a batch per the original claim. -/
def batchClaimCount (b : Batch) : Nat :=
  (b.actions.map actionClaimCount).sum

/-- Minimal action (all optional fields absent) for the C1
counterexample. -/
def actionMin : Action :=
  { action_name := .otherAction "y", start_time := "", ending_time := "",
    method_name := "", equipment_name := "", sub_equipment_name := "",
    container_info := none, temperature_shaker := none,
    temperature_tumble_stirrer := none, speed_shaker := none, dispense_type := none,
    dispense_state := none, has_container_position_and_quantity := none,
    has_sample := none }

/-- Concrete two-action batch of the C1 counterexample. -/
def batchC1 : Batch := { batch_id := "B-3", actions := [actionMin, actionMin] }

/-- Full conversion of `batchC1` from a fresh builder. -/
def batchC1run : Except GraphError GraphBuilder :=
  GraphBuilder.new >>= fun g => g.insert_a_batch batchC1

/-- Graph produced by `batchC1run`. -/
def batchC1graph : List Triple :=
  match batchC1run with
  | .ok g => g.graph
  | .error _ => []

/-! Predicate inventories of the subtrees hanging off an action node,
used to locate `cat:hasBatch` edges and field predicates. -/

/-- Predicates occurring in a chemical subtree. -/
def chemPreds : List Term :=
  [CAT "has_chemical", RDF "type", PURL "identifier", CAT "chemicalName",
   CAT "casNumber", ALLORES "AFR_0002295", ALLORES "AFR_0002294"]

/-- Predicates occurring in a sample-item subtree. -/
def itemPreds : List Term :=
  [RDF "type", CAT "hasSample", CAT "role", CAT "expectedDatum", QUDT "unit",
   QUDT "value", PURL "identifier", ALLOQUAL "AFQ_0000111", CAT "internalBarCode"]
  ++ chemPreds

/-- Predicates occurring in a sample subtree. -/
def samplePreds : List Term :=
  [CAT "hasSample", RDF "type", CAT "containerID", CAT "containerBarcode",
   CAT "expectedDatum", QUDT "unit", QUDT "value", CAT "vialShape",
   ALLORES "AFR_0002464", CAT "role"]
  ++ itemPreds

/-- Predicates occurring in a container-position subtree. -/
def cposPreds : List Term :=
  [CAT "hasContainerPositionAndQuantity", RDF "type", ALLORES "AFR_0002240",
   QUDT "quantity", QUDT "unit", QUDT "value"]

/-- Predicates occurring inside the chemical subtree strictly below the
chemical node itself (every triple whose subject is the chemical's named
node uses one of these). -/
def chemInner : List Term :=
  [RDF "type", PURL "identifier", CAT "chemicalName", CAT "casNumber",
   ALLORES "AFR_0002295", ALLORES "AFR_0002294"]

/-! Basic simp lemmas. -/

@[simp] theorem isLiteralT_namedNode (s : String) : (Term.namedNode s).isLiteralT = false := rfl

@[simp] theorem isLiteralT_blankNode (k : Nat) : (Term.blankNode k).isLiteralT = false := rfl

@[simp] theorem isLiteralT_literal (s d : String) : (Term.literal s d).isLiteralT = true := rfl

@[simp] theorem isNamed_namedNode (s : String) : (Term.namedNode s).isNamed = true := rfl

@[simp] theorem isNamed_blankNode (k : Nat) : (Term.blankNode k).isNamed = false := rfl

@[simp] theorem isNamed_literal (s d : String) : (Term.literal s d).isNamed = false := rfl

@[simp] theorem CAT_isNamed (l : String) : (CAT l).isNamed = true := rfl

@[simp] theorem SCHEMA_isNamed (l : String) : (SCHEMA l).isNamed = true := rfl

@[simp] theorem ALLORES_isNamed (l : String) : (ALLORES l).isNamed = true := rfl

@[simp] theorem ALLOQUAL_isNamed (l : String) : (ALLOQUAL l).isNamed = true := rfl

@[simp] theorem QUDT_isNamed (l : String) : (QUDT l).isNamed = true := rfl

@[simp] theorem PURL_isNamed (l : String) : (PURL l).isNamed = true := rfl

@[simp] theorem OBO_isNamed (l : String) : (OBO l).isNamed = true := rfl

@[simp] theorem RDF_isNamed (l : String) : (RDF l).isNamed = true := rfl

@[simp] theorem ok_bind {α β : Type} (a : α) (f : α → Except GraphError β) :
    ((Except.ok a : Except GraphError α) >>= f) = f a := rfl

@[simp] theorem error_bind {α β : Type} (e : GraphError) (f : α → Except GraphError β) :
    ((Except.error e : Except GraphError α) >>= f) = .error e := rfl

/-! Normal-form equations: every builder method appends exactly the
triples computed by its derived list function and advances the counter
by its mint count. -/

/-- Normal form of `GraphBuilder.insert`. -/
theorem insert_ok (g : GraphBuilder) {s p : Term} (o : Term)
    (hs : s.isLiteralT = false) (hp : p.isNamed = true) :
    g.insert s p o = .ok { graph := g.graph ++ [⟨s, p, o⟩], counter := g.counter } := by
  simp [GraphBuilder.insert, hs, hp]

/-- Normal form of `insert_a_date_time`. -/
theorem insert_a_date_time_nf (g : GraphBuilder) {s p : Term} (dt : String)
    (hs : s.isLiteralT = false) (hp : p.isNamed = true) :
    g.insert_a_date_time s p dt =
      .ok { graph := g.graph ++ [⟨s, p, .literal dt xsdDateTime⟩], counter := g.counter } := by
  simp [GraphBuilder.insert_a_date_time, GraphBuilder.insert, hs, hp]

/-- Normal form of `insert_container_properties`. -/
theorem insert_container_properties_nf (g : GraphBuilder) {s : Term} (ci : ContainerInfo)
    (hs : s.isLiteralT = false) :
    g.insert_container_properties s ci =
      .ok { graph := g.graph ++ cprops_triples s ci, counter := g.counter } := by
  simp [GraphBuilder.insert_container_properties, insert_ok, hs, cprops_triples]

/-- Normal form of `insert_an_observation`. -/
theorem insert_an_observation_nf (g : GraphBuilder) {s p : Term} (o : Observation)
    (hs : s.isLiteralT = false) (hp : p.isNamed = true) :
    g.insert_an_observation s p o =
      .ok { graph := g.graph ++ obs_triples g.counter s p o, counter := g.counter + 1 } := by
  simp [GraphBuilder.insert_an_observation, GraphBuilder.generate_bnode_term, insert_ok,
    hs, hp, obs_triples]

/-- Normal form of `opt_observation`. -/
theorem opt_observation_nf (g : GraphBuilder) {s p : Term} (o? : Option Observation)
    (hs : s.isLiteralT = false) (hp : p.isNamed = true) :
    g.opt_observation s p o? =
      .ok { graph := g.graph ++ optObs_triples g.counter s p o?,
            counter := g.counter + oMints o? } := by
  cases o? with
  | none => simp [GraphBuilder.opt_observation, optObs_triples, oMints]
  | some o =>
      simp [GraphBuilder.opt_observation, optObs_triples, oMints,
        insert_an_observation_nf g o hs hp]

/-- Normal form of `opt_container_info`. -/
theorem opt_container_info_nf (g : GraphBuilder) {s : Term} (ci? : Option ContainerInfo)
    (hs : s.isLiteralT = false) :
    g.opt_container_info s ci? =
      .ok { graph := g.graph ++ optCprops_triples s ci?, counter := g.counter } := by
  cases ci? with
  | none => simp [GraphBuilder.opt_container_info, optCprops_triples]
  | some ci =>
      simp [GraphBuilder.opt_container_info, optCprops_triples,
        insert_container_properties_nf g ci hs]

/-- Normal form of `opt_literal`. -/
theorem opt_literal_nf (g : GraphBuilder) {s p : Term} (v? : Option String)
    (hs : s.isLiteralT = false) (hp : p.isNamed = true) :
    g.opt_literal s p v? =
      .ok { graph := g.graph ++ optLit_triples s p v?, counter := g.counter } := by
  cases v? with
  | none => simp [GraphBuilder.opt_literal, optLit_triples]
  | some v => simp [GraphBuilder.opt_literal, optLit_triples, insert_ok, hs, hp]

/-- Normal form of `insert_a_container_position`. -/
theorem insert_a_container_position_nf (g : GraphBuilder) {s : Term} (cp : ContainerPosition)
    (hs : s.isLiteralT = false) :
    g.insert_a_container_position s cp =
      .ok { graph := g.graph ++ cpos_triples g.counter s cp, counter := g.counter + 2 } := by
  simp [GraphBuilder.insert_a_container_position, GraphBuilder.generate_bnode_term, insert_ok,
    hs, insert_an_observation_nf, cpos_triples]

/-- Normal form of `insert_container_positions`. -/
theorem insert_container_positions_nf {s : Term} (hs : s.isLiteralT = false)
    (l : List ContainerPosition) :
    ∀ g : GraphBuilder,
      g.insert_container_positions s l =
        .ok { graph := g.graph ++ cposList_triples g.counter s l,
              counter := g.counter + cposList_mints l } := by
  induction l with
  | nil =>
      intro g
      simp [GraphBuilder.insert_container_positions, cposList_triples, cposList_mints]
  | cons cp rest ih =>
      intro g
      simp only [GraphBuilder.insert_container_positions]
      rw [insert_a_container_position_nf g cp hs, ok_bind, ih]
      simp [cposList_triples, cposList_mints]
      omega

/-- Normal form of `opt_container_positions`. -/
theorem opt_container_positions_nf (g : GraphBuilder) {s : Term}
    (l? : Option (List ContainerPosition)) (hs : s.isLiteralT = false) :
    g.opt_container_positions s l? =
      .ok { graph := g.graph ++ optCposList_triples g.counter s l?,
            counter := g.counter + oCposMints l? } := by
  cases l? with
  | none => simp [GraphBuilder.opt_container_positions, optCposList_triples, oCposMints]
  | some l =>
      simp [GraphBuilder.opt_container_positions, optCposList_triples, oCposMints,
        insert_container_positions_nf hs l]

/-- Normal form of `insert_a_chemical`. -/
theorem insert_a_chemical_nf (g : GraphBuilder) {s : Term} (ch : Chemical)
    (hs : s.isLiteralT = false) :
    g.insert_a_chemical s ch =
      .ok { graph := g.graph ++ chem_triples g.counter s ch, counter := g.counter + 1 } := by
  simp [GraphBuilder.insert_a_chemical, GraphBuilder.generate_uri_term, insert_ok, hs,
    chem_triples]

/-- Normal form of `insert_a_sample`. -/
theorem insert_a_sample_nf (g : GraphBuilder) {s : Term} (si : SampleItem)
    (hs : s.isLiteralT = false) :
    g.insert_a_sample s si =
      .ok { graph := g.graph ++ item_triples g.counter s si,
            counter := g.counter + item_mints si } := by
  simp only [GraphBuilder.insert_a_sample, GraphBuilder.generate_bnode_term]
  rw [insert_ok _ _ (by simp) (by simp), ok_bind, insert_ok _ _ hs (by simp), ok_bind, insert_ok _ _ (by simp) (by simp),
    ok_bind, opt_observation_nf _ _ (by simp) (by simp), ok_bind, insert_ok _ _ (by simp) (by simp), ok_bind,
    insert_ok _ _ (by simp) (by simp), ok_bind, insert_ok _ _ (by simp) (by simp), ok_bind, insert_ok _ _ (by simp) (by simp),
    ok_bind, insert_a_chemical_nf _ _ (by simp)]
  simp [item_triples, item_mints]
  omega

/-- Normal form of `insert_sample_items`. -/
theorem insert_sample_items_nf {s : Term} (hs : s.isLiteralT = false) (l : List SampleItem) :
    ∀ g : GraphBuilder,
      g.insert_sample_items s l =
        .ok { graph := g.graph ++ items_triples g.counter s l,
              counter := g.counter + items_mints l } := by
  induction l with
  | nil => intro g; simp [GraphBuilder.insert_sample_items, items_triples, items_mints]
  | cons si rest ih =>
      intro g
      simp only [GraphBuilder.insert_sample_items]
      rw [insert_a_sample_nf g si hs, ok_bind, ih]
      simp [items_triples, items_mints]
      omega

/-- Normal form of `insert_samples`. -/
theorem insert_samples_nf (g : GraphBuilder) {s : Term} (smp : Sample)
    (hs : s.isLiteralT = false) :
    g.insert_samples s smp =
      .ok { graph := g.graph ++ sample_triples g.counter s smp,
            counter := g.counter + sample_mints smp } := by
  simp only [GraphBuilder.insert_samples, GraphBuilder.generate_bnode_term]
  rw [insert_ok _ _ hs (by simp), ok_bind, insert_ok _ _ (by simp) (by simp), ok_bind,
    insert_container_properties_nf _ _ (by simp), ok_bind, insert_an_observation_nf _ _ (by simp) (by simp),
    ok_bind, insert_ok _ _ (by simp) (by simp), ok_bind, insert_ok _ _ (by simp) (by simp), ok_bind,
    insert_ok _ _ (by simp) (by simp), ok_bind, insert_sample_items_nf (by simp) smp.has_sample]
  simp [sample_triples, sample_mints]
  omega

/-- Normal form of `opt_samples`. -/
theorem opt_samples_nf (g : GraphBuilder) {s : Term} (smp? : Option Sample)
    (hs : s.isLiteralT = false) :
    g.opt_samples s smp? =
      .ok { graph := g.graph ++ optSample_triples g.counter s smp?,
            counter := g.counter + oSampleMints smp? } := by
  cases smp? with
  | none => simp [GraphBuilder.opt_samples, optSample_triples, oSampleMints]
  | some smp =>
      simp [GraphBuilder.opt_samples, optSample_triples, oSampleMints,
        insert_samples_nf g smp hs]

/-- Normal form of `insert_action_type`: exactly one type-assertion
triple, whose class is `actionClass`. -/
theorem insert_action_type_nf (g : GraphBuilder) {s : Term} (a : Action)
    (hs : s.isLiteralT = false) :
    g.insert_action_type s a =
      .ok { graph := g.graph ++ [⟨s, RDF "type", actionClass a⟩], counter := g.counter } := by
  cases h : a.action_name <;>
    simp [GraphBuilder.insert_action_type, actionClass, h, insert_ok, hs]

/-- Normal form of `insert_an_action` (no side conditions: the batch
term only ever appears in object position). -/
theorem insert_an_action_nf (g : GraphBuilder) (s : Term) (a : Action) :
    g.insert_an_action s a =
      .ok { graph := g.graph ++ action_triples g.counter s a,
            counter := g.counter + action_mints a } := by
  simp only [GraphBuilder.insert_an_action, GraphBuilder.generate_uri_term]
  rw [insert_ok _ _ (by simp) (by simp), ok_bind, insert_a_date_time_nf _ _ (by simp) (by simp), ok_bind,
    insert_a_date_time_nf _ _ (by simp) (by simp), ok_bind, insert_ok _ _ (by simp) (by simp), ok_bind,
    insert_ok _ _ (by simp) (by simp), ok_bind, insert_ok _ _ (by simp) (by simp), ok_bind,
    opt_container_info_nf _ _ (by simp), ok_bind, opt_observation_nf _ _ (by simp) (by simp), ok_bind,
    opt_observation_nf _ _ (by simp) (by simp), ok_bind, opt_observation_nf _ _ (by simp) (by simp), ok_bind,
    opt_literal_nf _ _ (by simp) (by simp), ok_bind, opt_literal_nf _ _ (by simp) (by simp), ok_bind,
    opt_container_positions_nf _ _ (by simp), ok_bind, opt_samples_nf _ _ (by simp), ok_bind,
    insert_action_type_nf _ _ (by simp)]
  simp [action_triples, action_mints]
  omega

/-- Normal form of `insert_actions`. -/
theorem insert_actions_nf (s : Term) (l : List Action) :
    ∀ g : GraphBuilder,
      g.insert_actions s l =
        .ok { graph := g.graph ++ actions_triples g.counter s l,
              counter := g.counter + actions_mints l } := by
  induction l with
  | nil => intro g; simp [GraphBuilder.insert_actions, actions_triples, actions_mints]
  | cons a rest ih =>
      intro g
      simp only [GraphBuilder.insert_actions]
      rw [insert_an_action_nf g s a, ok_bind, ih]
      simp [actions_triples, actions_mints]
      omega

/-- Normal form of `insert_a_batch`. -/
theorem insert_a_batch_nf (g : GraphBuilder) (b : Batch) :
    g.insert_a_batch b =
      .ok { graph := g.graph ++ batch_triples g.counter b,
            counter := g.counter + batch_mints b } := by
  simp only [GraphBuilder.insert_a_batch, GraphBuilder.generate_bnode_term]
  rw [insert_ok _ _ (by simp) (by simp), ok_bind, insert_ok _ _ (by simp) (by simp), ok_bind,
    insert_actions_nf _ b.actions]
  simp [batch_triples, batch_mints]
  omega

/-! Predicate-inventory lemmas: which predicates occur in each subtree. -/

/-- Predicates of an observation chunk. -/
theorem obs_pred_mem {c : Nat} {s p : Term} {o : Observation} :
    ∀ t ∈ obs_triples c s p o,
      t.pred = p ∨ t.pred = QUDT "unit" ∨ t.pred = QUDT "value" := by
  intro t ht
  simp only [obs_triples, List.mem_cons, List.not_mem_nil, or_false] at ht
  rcases ht with rfl | rfl | rfl <;> simp

/-- Predicates of an optional observation chunk. -/
theorem optObs_pred_mem {c : Nat} {s p : Term} {o? : Option Observation} :
    ∀ t ∈ optObs_triples c s p o?,
      t.pred = p ∨ t.pred = QUDT "unit" ∨ t.pred = QUDT "value" := by
  cases o? with
  | none => intro t ht; simp [optObs_triples] at ht
  | some o => intro t ht; exact obs_pred_mem t ht

/-- Predicates of an optional literal chunk. -/
theorem optLit_pred_mem {s p : Term} {v? : Option String} :
    ∀ t ∈ optLit_triples s p v?, t.pred = p := by
  cases v? with
  | none => intro t ht; simp [optLit_triples] at ht
  | some v =>
      intro t ht
      simp only [optLit_triples, List.mem_cons, List.not_mem_nil, or_false] at ht
      subst ht; rfl

/-- Predicates of an optional container-properties chunk. -/
theorem optCprops_pred_mem {s : Term} {ci? : Option ContainerInfo} :
    ∀ t ∈ optCprops_triples s ci?,
      t.pred = CAT "containerID" ∨ t.pred = CAT "containerBarcode" := by
  cases ci? with
  | none => intro t ht; simp [optCprops_triples] at ht
  | some ci =>
      intro t ht
      simp only [optCprops_triples, cprops_triples, List.mem_cons, List.not_mem_nil,
        or_false] at ht
      rcases ht with rfl | rfl <;> simp

/-- Predicates of a chemical chunk. -/
theorem chem_pred_mem {c : Nat} {s : Term} {ch : Chemical} :
    ∀ t ∈ chem_triples c s ch, t.pred ∈ chemPreds := by
  intro t ht
  simp only [chem_triples, List.mem_cons, List.not_mem_nil, or_false] at ht
  rcases ht with rfl | rfl | rfl | rfl | rfl | rfl | rfl <;> simp [chemPreds]

/-- Predicates of a sample-item chunk. -/
theorem item_pred_mem {c : Nat} {s : Term} {si : SampleItem} :
    ∀ t ∈ item_triples c s si, t.pred ∈ itemPreds := by
  intro t ht
  simp only [item_triples, List.mem_append, List.mem_cons, List.not_mem_nil,
    or_false] at ht
  rcases ht with (((rfl | rfl | rfl) | hopt) | (rfl | rfl | rfl | rfl)) | hchem
  · simp [itemPreds]
  · simp [itemPreds]
  · simp [itemPreds]
  · rcases optObs_pred_mem t hopt with he | he | he <;> rw [he] <;> simp [itemPreds]
  · simp [itemPreds]
  · simp [itemPreds]
  · simp [itemPreds]
  · simp [itemPreds]
  · have := chem_pred_mem t hchem
    simp only [itemPreds, List.mem_append]
    exact Or.inr this

/-- Predicates of a sample-item list chunk. -/
theorem items_pred_mem {s : Term} (l : List SampleItem) :
    ∀ (c : Nat), ∀ t ∈ items_triples c s l, t.pred ∈ itemPreds := by
  induction l with
  | nil => intro c t ht; simp [items_triples] at ht
  | cons si rest ih =>
      intro c t ht
      simp only [items_triples, List.mem_append] at ht
      rcases ht with h | h
      · exact item_pred_mem t h
      · exact ih _ t h

/-- Predicates of a sample chunk. -/
theorem sample_pred_mem {c : Nat} {s : Term} {smp : Sample} :
    ∀ t ∈ sample_triples c s smp, t.pred ∈ samplePreds := by
  intro t ht
  simp only [sample_triples, cprops_triples, List.mem_append, List.mem_cons,
    List.not_mem_nil, or_false] at ht
  rcases ht with ((((rfl | rfl) | (rfl | rfl)) | hobs) | (rfl | rfl | rfl)) | hitems
  · simp [samplePreds]
  · simp [samplePreds]
  · simp [samplePreds]
  · simp [samplePreds]
  · rcases obs_pred_mem t hobs with he | he | he <;> rw [he] <;> simp [samplePreds]
  · simp [samplePreds]
  · simp [samplePreds]
  · simp [samplePreds]
  · have := items_pred_mem smp.has_sample _ t hitems
    simp only [samplePreds, List.mem_append]
    exact Or.inr this

/-- Predicates of an optional sample chunk. -/
theorem optSample_pred_mem {c : Nat} {s : Term} {smp? : Option Sample} :
    ∀ t ∈ optSample_triples c s smp?, t.pred ∈ samplePreds := by
  cases smp? with
  | none => intro t ht; simp [optSample_triples] at ht
  | some smp => intro t ht; exact sample_pred_mem t ht

/-- Predicates of a container-position chunk. -/
theorem cpos_pred_mem {c : Nat} {s : Term} {cp : ContainerPosition} :
    ∀ t ∈ cpos_triples c s cp, t.pred ∈ cposPreds := by
  intro t ht
  simp only [cpos_triples, List.mem_append, List.mem_cons, List.not_mem_nil,
    or_false] at ht
  rcases ht with (rfl | rfl | rfl) | hobs
  · simp [cposPreds]
  · simp [cposPreds]
  · simp [cposPreds]
  · rcases obs_pred_mem t hobs with he | he | he <;> rw [he] <;> simp [cposPreds]

/-- Predicates of a container-position list chunk. -/
theorem cposList_pred_mem {s : Term} (l : List ContainerPosition) :
    ∀ (c : Nat), ∀ t ∈ cposList_triples c s l, t.pred ∈ cposPreds := by
  induction l with
  | nil => intro c t ht; simp [cposList_triples] at ht
  | cons cp rest ih =>
      intro c t ht
      simp only [cposList_triples, List.mem_append] at ht
      rcases ht with h | h
      · exact cpos_pred_mem t h
      · exact ih _ t h

/-- Predicates of an optional container-position list chunk. -/
theorem optCposList_pred_mem {c : Nat} {s : Term} {l? : Option (List ContainerPosition)} :
    ∀ t ∈ optCposList_triples c s l?, t.pred ∈ cposPreds := by
  cases l? with
  | none => intro t ht; simp [optCposList_triples] at ht
  | some l => intro t ht; exact cposList_pred_mem l _ t ht

/-! Subject-profile lemmas: which (subject, predicate) shapes occur in
each subtree.  They power the presence-policy claims without any global
freshness argument. -/

/-- Subject profile of an observation chunk. -/
theorem obs_subj_profile {c : Nat} {s p : Term} {o : Observation} :
    ∀ t ∈ obs_triples c s p o,
      (t.subj = s ∧ t.pred = p) ∨ ∃ k, t.subj = Term.blankNode k := by
  intro t ht
  simp only [obs_triples, List.mem_cons, List.not_mem_nil, or_false] at ht
  rcases ht with rfl | rfl | rfl
  · exact Or.inl ⟨rfl, rfl⟩
  · exact Or.inr ⟨c, rfl⟩
  · exact Or.inr ⟨c, rfl⟩

/-- Subject profile of an optional observation chunk. -/
theorem optObs_subj_profile {c : Nat} {s p : Term} {o? : Option Observation} :
    ∀ t ∈ optObs_triples c s p o?,
      (t.subj = s ∧ t.pred = p) ∨ ∃ k, t.subj = Term.blankNode k := by
  cases o? with
  | none => intro t ht; simp [optObs_triples] at ht
  | some o => intro t ht; exact obs_subj_profile t ht

/-- Subject profile of a container-properties chunk. -/
theorem cprops_subj_profile {s : Term} {ci : ContainerInfo} :
    ∀ t ∈ cprops_triples s ci,
      t.subj = s ∧ (t.pred = CAT "containerID" ∨ t.pred = CAT "containerBarcode") := by
  intro t ht
  simp only [cprops_triples, List.mem_cons, List.not_mem_nil, or_false] at ht
  rcases ht with rfl | rfl
  · exact ⟨rfl, Or.inl rfl⟩
  · exact ⟨rfl, Or.inr rfl⟩

/-- Subject profile of an optional container-properties chunk. -/
theorem optCprops_subj_profile {s : Term} {ci? : Option ContainerInfo} :
    ∀ t ∈ optCprops_triples s ci?,
      t.subj = s ∧ (t.pred = CAT "containerID" ∨ t.pred = CAT "containerBarcode") := by
  cases ci? with
  | none => intro t ht; simp [optCprops_triples] at ht
  | some ci => intro t ht; exact cprops_subj_profile t ht

/-- Subject profile of an optional literal chunk. -/
theorem optLit_subj_profile {s p : Term} {v? : Option String} :
    ∀ t ∈ optLit_triples s p v?, t.subj = s ∧ t.pred = p := by
  cases v? with
  | none => intro t ht; simp [optLit_triples] at ht
  | some v =>
      intro t ht
      simp only [optLit_triples, List.mem_cons, List.not_mem_nil, or_false] at ht
      subst ht; exact ⟨rfl, rfl⟩

/-- Subject profile of a chemical chunk. -/
theorem chem_subj_profile {c : Nat} {s : Term} {ch : Chemical} :
    ∀ t ∈ chem_triples c s ch,
      (t.subj = s ∧ t.pred = CAT "has_chemical") ∨
      (∃ k, t.subj = Term.namedNode (synthUri k) ∧ t.pred ∈ chemInner) := by
  intro t ht
  simp only [chem_triples, List.mem_cons, List.not_mem_nil, or_false] at ht
  rcases ht with rfl | rfl | rfl | rfl | rfl | rfl | rfl
  · exact Or.inl ⟨rfl, rfl⟩
  · exact Or.inr ⟨c, rfl, show RDF "type" ∈ chemInner by decide⟩
  · exact Or.inr ⟨c, rfl, show PURL "identifier" ∈ chemInner by decide⟩
  · exact Or.inr ⟨c, rfl, show CAT "chemicalName" ∈ chemInner by decide⟩
  · exact Or.inr ⟨c, rfl, show CAT "casNumber" ∈ chemInner by decide⟩
  · exact Or.inr ⟨c, rfl, show ALLORES "AFR_0002295" ∈ chemInner by decide⟩
  · exact Or.inr ⟨c, rfl, show ALLORES "AFR_0002294" ∈ chemInner by decide⟩

/-- Subject profile of a sample-item chunk. -/
theorem item_subj_profile {c : Nat} {s : Term} {si : SampleItem} :
    ∀ t ∈ item_triples c s si,
      (t.subj = s ∧ t.pred = CAT "hasSample") ∨ (∃ k, t.subj = Term.blankNode k) ∨
      (∃ k, t.subj = Term.namedNode (synthUri k) ∧ t.pred ∈ chemInner) := by
  intro t ht
  simp only [item_triples, List.mem_append, List.mem_cons, List.not_mem_nil,
    or_false] at ht
  rcases ht with (((rfl | rfl | rfl) | hopt) | (rfl | rfl | rfl | rfl)) | hchem
  · exact Or.inr (Or.inl ⟨c, rfl⟩)
  · exact Or.inl ⟨rfl, rfl⟩
  · exact Or.inr (Or.inl ⟨c, rfl⟩)
  · rcases optObs_subj_profile t hopt with ⟨hsub, _⟩ | ⟨k, hk⟩
    · exact Or.inr (Or.inl ⟨c, hsub⟩)
    · exact Or.inr (Or.inl ⟨k, hk⟩)
  · exact Or.inr (Or.inl ⟨c, rfl⟩)
  · exact Or.inr (Or.inl ⟨c, rfl⟩)
  · exact Or.inr (Or.inl ⟨c, rfl⟩)
  · exact Or.inr (Or.inl ⟨c, rfl⟩)
  · rcases chem_subj_profile t hchem with ⟨hsub, _⟩ | ⟨k, hk, hp⟩
    · exact Or.inr (Or.inl ⟨c, hsub⟩)
    · exact Or.inr (Or.inr ⟨k, hk, hp⟩)

/-- Subject profile of a sample-item list chunk. -/
theorem items_subj_profile {s : Term} (l : List SampleItem) :
    ∀ (c : Nat), ∀ t ∈ items_triples c s l,
      (t.subj = s ∧ t.pred = CAT "hasSample") ∨ (∃ k, t.subj = Term.blankNode k) ∨
      (∃ k, t.subj = Term.namedNode (synthUri k) ∧ t.pred ∈ chemInner) := by
  induction l with
  | nil => intro c t ht; simp [items_triples] at ht
  | cons si rest ih =>
      intro c t ht
      simp only [items_triples, List.mem_append] at ht
      rcases ht with h | h
      · exact item_subj_profile t h
      · exact ih _ t h

/-- Subject profile of a sample chunk. -/
theorem sample_subj_profile {c : Nat} {s : Term} {smp : Sample} :
    ∀ t ∈ sample_triples c s smp,
      (t.subj = s ∧ t.pred = CAT "hasSample") ∨ (∃ k, t.subj = Term.blankNode k) ∨
      (∃ k, t.subj = Term.namedNode (synthUri k) ∧ t.pred ∈ chemInner) := by
  intro t ht
  simp only [sample_triples, List.mem_append, List.mem_cons, List.not_mem_nil,
    or_false] at ht
  rcases ht with ((((rfl | rfl) | hC) | hobs) | (rfl | rfl | rfl)) | hitems
  · exact Or.inl ⟨rfl, rfl⟩
  · exact Or.inr (Or.inl ⟨c, rfl⟩)
  · rcases cprops_subj_profile t hC with ⟨hsub, _⟩
    exact Or.inr (Or.inl ⟨c, hsub⟩)
  · rcases obs_subj_profile t hobs with ⟨hsub, _⟩ | ⟨k, hk⟩
    · exact Or.inr (Or.inl ⟨c, hsub⟩)
    · exact Or.inr (Or.inl ⟨k, hk⟩)
  · exact Or.inr (Or.inl ⟨c, rfl⟩)
  · exact Or.inr (Or.inl ⟨c, rfl⟩)
  · exact Or.inr (Or.inl ⟨c, rfl⟩)
  · rcases items_subj_profile smp.has_sample _ t hitems with ⟨hsub, _⟩ | h | h
    · exact Or.inr (Or.inl ⟨c, hsub⟩)
    · exact Or.inr (Or.inl h)
    · exact Or.inr (Or.inr h)

/-- Subject profile of an optional sample chunk. -/
theorem optSample_subj_profile {c : Nat} {s : Term} {smp? : Option Sample} :
    ∀ t ∈ optSample_triples c s smp?,
      (t.subj = s ∧ t.pred = CAT "hasSample") ∨ (∃ k, t.subj = Term.blankNode k) ∨
      (∃ k, t.subj = Term.namedNode (synthUri k) ∧ t.pred ∈ chemInner) := by
  cases smp? with
  | none => intro t ht; simp [optSample_triples] at ht
  | some smp => intro t ht; exact sample_subj_profile t ht

/-- Subject profile of a container-position chunk. -/
theorem cpos_subj_profile {c : Nat} {s : Term} {cp : ContainerPosition} :
    ∀ t ∈ cpos_triples c s cp,
      (t.subj = s ∧ t.pred = CAT "hasContainerPositionAndQuantity") ∨
      ∃ k, t.subj = Term.blankNode k := by
  intro t ht
  simp only [cpos_triples, List.mem_append, List.mem_cons, List.not_mem_nil,
    or_false] at ht
  rcases ht with (rfl | rfl | rfl) | hobs
  · exact Or.inl ⟨rfl, rfl⟩
  · exact Or.inr ⟨c, rfl⟩
  · exact Or.inr ⟨c, rfl⟩
  · rcases obs_subj_profile t hobs with ⟨hsub, _⟩ | ⟨k, hk⟩
    · exact Or.inr ⟨c, hsub⟩
    · exact Or.inr ⟨k, hk⟩

/-- Subject profile of a container-position list chunk. -/
theorem cposList_subj_profile {s : Term} (l : List ContainerPosition) :
    ∀ (c : Nat), ∀ t ∈ cposList_triples c s l,
      (t.subj = s ∧ t.pred = CAT "hasContainerPositionAndQuantity") ∨
      ∃ k, t.subj = Term.blankNode k := by
  induction l with
  | nil => intro c t ht; simp [cposList_triples] at ht
  | cons cp rest ih =>
      intro c t ht
      simp only [cposList_triples, List.mem_append] at ht
      rcases ht with h | h
      · exact cpos_subj_profile t h
      · exact ih _ t h

/-- Subject profile of an optional container-position list chunk. -/
theorem optCposList_subj_profile {c : Nat} {s : Term}
    {l? : Option (List ContainerPosition)} :
    ∀ t ∈ optCposList_triples c s l?,
      (t.subj = s ∧ t.pred = CAT "hasContainerPositionAndQuantity") ∨
      ∃ k, t.subj = Term.blankNode k := by
  cases l? with
  | none => intro t ht; simp [optCposList_triples] at ht
  | some l => intro t ht; exact cposList_subj_profile l _ t ht

/-- Counting helper: a chunk whose predicates avoid `cat:hasBatch`
contributes no `cat:hasBatch` edge. -/
theorem countP_hasBatch_zero {l : List Triple}
    (h : ∀ t ∈ l, ¬ t.pred = CAT "hasBatch") :
    l.countP (fun t => t.pred == CAT "hasBatch") = 0 := by
  apply List.countP_eq_zero.mpr
  intro t ht hbeq
  rw [beq_iff_eq] at hbeq
  exact h t ht hbeq

/-- Clash helper: two unequal concrete terms cannot both be the
predicate of one triple. -/
theorem pred_clash {X Y : Term} (he : X = Y) (hne : (X == Y) = false) : False := by
  subst he; simp at hne

/-- Mem-list clash helper: a concrete term outside a concrete list
cannot be a member of it. -/
theorem mem_clash {X : Term} {l : List Term} (he : X ∈ l) (hne : X ∉ l) : False := hne he

/-- Every `cat:hasBatch` triple of an action chunk is the single
child-to-parent link minted at the head of the chunk. -/
theorem action_hasBatch_mem (c : Nat) (s : Term) (a : Action) :
    ∀ t ∈ action_triples c s a, t.pred = CAT "hasBatch" →
      t = ⟨.namedNode (synthUri c), CAT "hasBatch", s⟩ := by
  intro t ht hb
  simp only [action_triples, List.mem_append, List.mem_cons, List.not_mem_nil,
    or_false] at ht
  rcases ht with ((((((((h6 | hC) | h1) | h2) | h3) | hd1) | hd2) | hcp) | hsm) | hty
  · rcases h6 with rfl | rfl | rfl | rfl | rfl | rfl
    · rfl
    · have hb2 : ALLORES "AFX_0000622" = CAT "hasBatch" := hb
      exact absurd hb2 (by decide)
    · have hb2 : ALLORES "AFR_0002423" = CAT "hasBatch" := hb
      exact absurd hb2 (by decide)
    · have hb2 : ALLORES "AFR_0001606" = CAT "hasBatch" := hb
      exact absurd hb2 (by decide)
    · have hb2 : ALLORES "AFR_0001723" = CAT "hasBatch" := hb
      exact absurd hb2 (by decide)
    · have hb2 : CAT "localEquipmentName" = CAT "hasBatch" := hb
      exact absurd hb2 (by decide)
  · rcases optCprops_pred_mem t hC with he | he <;> rw [hb] at he <;>
      exact (pred_clash he (by decide)).elim
  · rcases optObs_pred_mem t h1 with he | he | he <;> rw [hb] at he <;>
      exact (pred_clash he (by decide)).elim
  · rcases optObs_pred_mem t h2 with he | he | he <;> rw [hb] at he <;>
      exact (pred_clash he (by decide)).elim
  · rcases optObs_pred_mem t h3 with he | he | he <;> rw [hb] at he <;>
      exact (pred_clash he (by decide)).elim
  · have he := optLit_pred_mem t hd1; rw [hb] at he
    exact (pred_clash he (by decide)).elim
  · have he := optLit_pred_mem t hd2; rw [hb] at he
    exact (pred_clash he (by decide)).elim
  · have he := optCposList_pred_mem t hcp; rw [hb] at he
    exact (mem_clash he (by decide)).elim
  · have he := optSample_pred_mem t hsm; rw [hb] at he
    exact (mem_clash he (by decide)).elim
  · subst hty
    have hb2 : RDF "type" = CAT "hasBatch" := hb
    exact absurd hb2 (by decide)

/-- An action chunk carries exactly one `cat:hasBatch` edge. -/
theorem action_hasBatch_countP (c : Nat) (s : Term) (a : Action) :
    (action_triples c s a).countP (fun t => t.pred == CAT "hasBatch") = 1 := by
  have e0 : ((CAT "hasBatch" : Term) == CAT "hasBatch") = true := by decide
  have e1 : ((ALLORES "AFX_0000622" : Term) == CAT "hasBatch") = false := by decide
  have e2 : ((ALLORES "AFR_0002423" : Term) == CAT "hasBatch") = false := by decide
  have e3 : ((ALLORES "AFR_0001606" : Term) == CAT "hasBatch") = false := by decide
  have e4 : ((ALLORES "AFR_0001723" : Term) == CAT "hasBatch") = false := by decide
  have e5 : ((CAT "localEquipmentName" : Term) == CAT "hasBatch") = false := by decide
  have e6 : ((RDF "type" : Term) == CAT "hasBatch") = false := by decide
  have hC : (optCprops_triples (Term.namedNode (synthUri c)) a.container_info).countP
      (fun t => t.pred == CAT "hasBatch") = 0 :=
    countP_hasBatch_zero (fun t ht hb => by
      rcases optCprops_pred_mem t ht with he | he <;> rw [hb] at he <;>
        exact pred_clash he (by decide))
  have hO : ∀ (k : Nat) (p : Term), (p = CAT "temperatureShakerShape" ∨
      p = CAT "temperatureTumbleStirrerShape" ∨ p = CAT "speedInRPM") →
      ∀ o? : Option Observation,
      (optObs_triples k (Term.namedNode (synthUri c)) p o?).countP
        (fun t => t.pred == CAT "hasBatch") = 0 := by
    intro k p hp o?
    refine countP_hasBatch_zero (fun t ht hb => ?_)
    rcases optObs_pred_mem t ht with he | he | he <;> rw [hb] at he
    · rcases hp with rfl | rfl | rfl
      · exact pred_clash he (by decide)
      · exact pred_clash he (by decide)
      · exact pred_clash he (by decide)
    · exact pred_clash he (by decide)
    · exact pred_clash he (by decide)
  have hL : ∀ (p : Term), (p = CAT "dispenseType" ∨ p = ALLOQUAL "AFQ_0000111") →
      ∀ v? : Option String,
      (optLit_triples (Term.namedNode (synthUri c)) p v?).countP
        (fun t => t.pred == CAT "hasBatch") = 0 := by
    intro p hp v?
    refine countP_hasBatch_zero (fun t ht hb => ?_)
    have he := optLit_pred_mem t ht
    rw [hb] at he
    rcases hp with rfl | rfl
    · exact pred_clash he (by decide)
    · exact pred_clash he (by decide)
  have hP : ∀ (k : Nat),
      (optCposList_triples k (Term.namedNode (synthUri c))
          a.has_container_position_and_quantity).countP
        (fun t => t.pred == CAT "hasBatch") = 0 := by
    intro k
    refine countP_hasBatch_zero (fun t ht hb => ?_)
    have he := optCposList_pred_mem t ht
    rw [hb] at he
    exact mem_clash he (by decide)
  have hS : ∀ (k : Nat),
      (optSample_triples k (Term.namedNode (synthUri c)) a.has_sample).countP
        (fun t => t.pred == CAT "hasBatch") = 0 := by
    intro k
    refine countP_hasBatch_zero (fun t ht hb => ?_)
    have he := optSample_pred_mem t ht
    rw [hb] at he
    exact mem_clash he (by decide)
  simp [action_triples, List.countP_append, List.countP_cons, e0, e1, e2, e3, e4, e5, e6,
    hC, hO _ _ (Or.inl rfl), hO _ _ (Or.inr (Or.inl rfl)), hO _ _ (Or.inr (Or.inr rfl)),
    hL _ (Or.inl rfl), hL _ (Or.inr rfl), hP, hS]

/-- Every `cat:hasBatch` triple of an action-list chunk points from a
minted named action node to the batch subject, and there is one per
action. -/
theorem actions_hasBatch (s : Term) (l : List Action) :
    ∀ (c : Nat),
      (actions_triples c s l).countP (fun t => t.pred == CAT "hasBatch") = l.length ∧
      ∀ t ∈ actions_triples c s l, t.pred = CAT "hasBatch" →
        t.obj = s ∧ ∃ k, t.subj = .namedNode (synthUri k) := by
  induction l with
  | nil => intro c; constructor <;> simp [actions_triples]
  | cons a rest ih =>
      intro c
      constructor
      · simp only [actions_triples, List.countP_append, action_hasBatch_countP,
          (ih (c + action_mints a)).1, List.length_cons]
        omega
      · intro t ht hb
        simp only [actions_triples, List.mem_append] at ht
        rcases ht with h | h
        · have := action_hasBatch_mem c s a t h hb
          subst this
          exact ⟨rfl, c, rfl⟩
        · exact (ih (c + action_mints a)).2 t h hb

/-- Classification of every triple of an action chunk whose subject is
the action node: its predicate is one of the mandatory-field predicates,
or it belongs to an optional field that is present (or, for triples that
could only collide with the chemical node, a chemical-node predicate). -/
theorem action_subj_pred_mem (c : Nat) (s : Term) (a : Action) :
    ∀ t ∈ action_triples c s a, t.subj = Term.namedNode (synthUri c) →
      t.pred = CAT "hasBatch" ∨ t.pred = ALLORES "AFX_0000622" ∨
      t.pred = ALLORES "AFR_0002423" ∨ t.pred = ALLORES "AFR_0001606" ∨
      t.pred = ALLORES "AFR_0001723" ∨ t.pred = CAT "localEquipmentName" ∨
      t.pred = RDF "type" ∨
      (a.container_info ≠ none ∧
        (t.pred = CAT "containerID" ∨ t.pred = CAT "containerBarcode")) ∨
      (a.temperature_shaker ≠ none ∧ t.pred = CAT "temperatureShakerShape") ∨
      (a.temperature_tumble_stirrer ≠ none ∧
        t.pred = CAT "temperatureTumbleStirrerShape") ∨
      (a.speed_shaker ≠ none ∧ t.pred = CAT "speedInRPM") ∨
      (a.dispense_type ≠ none ∧ t.pred = CAT "dispenseType") ∨
      (a.dispense_state ≠ none ∧ t.pred = ALLOQUAL "AFQ_0000111") ∨
      (a.has_container_position_and_quantity ≠ none ∧
        t.pred = CAT "hasContainerPositionAndQuantity") ∨
      (a.has_sample ≠ none ∧ (t.pred = CAT "hasSample" ∨ t.pred ∈ chemInner)) := by
  intro t ht hsub
  simp only [action_triples, List.mem_append, List.mem_cons, List.not_mem_nil,
    or_false] at ht
  rcases ht with ((((((((h6 | hC) | h1) | h2) | h3) | hd1) | hd2) | hcp) | hsm) | hty
  · rcases h6 with rfl | rfl | rfl | rfl | rfl | rfl <;> simp
  · cases hE : a.container_info with
    | none => rw [hE] at hC; simp [optCprops_triples] at hC
    | some ci =>
        rcases optCprops_subj_profile t hC with ⟨_, hpred⟩
        exact Or.inr (Or.inr (Or.inr (Or.inr (Or.inr (Or.inr (Or.inr
          (Or.inl ⟨by simp, hpred⟩)))))))
  · cases hE : a.temperature_shaker with
    | none => rw [hE] at h1; simp [optObs_triples] at h1
    | some o =>
        rcases optObs_subj_profile t h1 with ⟨_, hpred⟩ | ⟨k, hk⟩
        · exact Or.inr (Or.inr (Or.inr (Or.inr (Or.inr (Or.inr (Or.inr (Or.inr
            (Or.inl ⟨by simp, hpred⟩))))))))
        · rw [hsub] at hk; simp at hk
  · cases hE : a.temperature_tumble_stirrer with
    | none => rw [hE] at h2; simp [optObs_triples] at h2
    | some o =>
        rcases optObs_subj_profile t h2 with ⟨_, hpred⟩ | ⟨k, hk⟩
        · exact Or.inr (Or.inr (Or.inr (Or.inr (Or.inr (Or.inr (Or.inr (Or.inr (Or.inr
            (Or.inl ⟨by simp, hpred⟩)))))))))
        · rw [hsub] at hk; simp at hk
  · cases hE : a.speed_shaker with
    | none => rw [hE] at h3; simp [optObs_triples] at h3
    | some o =>
        rcases optObs_subj_profile t h3 with ⟨_, hpred⟩ | ⟨k, hk⟩
        · exact Or.inr (Or.inr (Or.inr (Or.inr (Or.inr (Or.inr (Or.inr (Or.inr (Or.inr
            (Or.inr (Or.inl ⟨by simp, hpred⟩))))))))))
        · rw [hsub] at hk; simp at hk
  · cases hE : a.dispense_type with
    | none => rw [hE] at hd1; simp [optLit_triples] at hd1
    | some v =>
        rcases optLit_subj_profile t hd1 with ⟨_, hpred⟩
        exact Or.inr (Or.inr (Or.inr (Or.inr (Or.inr (Or.inr (Or.inr (Or.inr (Or.inr
          (Or.inr (Or.inr (Or.inl ⟨by simp, hpred⟩)))))))))))
  · cases hE : a.dispense_state with
    | none => rw [hE] at hd2; simp [optLit_triples] at hd2
    | some v =>
        rcases optLit_subj_profile t hd2 with ⟨_, hpred⟩
        exact Or.inr (Or.inr (Or.inr (Or.inr (Or.inr (Or.inr (Or.inr (Or.inr (Or.inr
          (Or.inr (Or.inr (Or.inr (Or.inl ⟨by simp, hpred⟩))))))))))))
  · cases hE : a.has_container_position_and_quantity with
    | none => rw [hE] at hcp; simp [optCposList_triples] at hcp
    | some ps =>
        rcases optCposList_subj_profile t hcp with ⟨_, hpred⟩ | ⟨k, hk⟩
        · exact Or.inr (Or.inr (Or.inr (Or.inr (Or.inr (Or.inr (Or.inr (Or.inr (Or.inr
            (Or.inr (Or.inr (Or.inr (Or.inr (Or.inl ⟨by simp, hpred⟩)))))))))))))
        · rw [hsub] at hk; simp at hk
  · cases hE : a.has_sample with
    | none => rw [hE] at hsm; simp [optSample_triples] at hsm
    | some smp =>
        rcases optSample_subj_profile t hsm with ⟨_, hpred⟩ | ⟨k, hk⟩ | ⟨k, hk, hpred⟩
        · exact Or.inr (Or.inr (Or.inr (Or.inr (Or.inr (Or.inr (Or.inr (Or.inr (Or.inr
            (Or.inr (Or.inr (Or.inr (Or.inr (Or.inr ⟨by simp, Or.inl hpred⟩)))))))))))))
        · rw [hsub] at hk; simp at hk
        · exact Or.inr (Or.inr (Or.inr (Or.inr (Or.inr (Or.inr (Or.inr (Or.inr (Or.inr
            (Or.inr (Or.inr (Or.inr (Or.inr (Or.inr ⟨by simp, Or.inr hpred⟩)))))))))))))
  · subst hty; simp

/-- The container-position link predicate only occurs when the
container-position field is present. -/
theorem action_cpos_pred (c : Nat) (s : Term) (a : Action) :
    ∀ t ∈ action_triples c s a, t.pred = CAT "hasContainerPositionAndQuantity" →
      a.has_container_position_and_quantity ≠ none := by
  intro t ht hb
  simp only [action_triples, List.mem_append, List.mem_cons, List.not_mem_nil,
    or_false] at ht
  rcases ht with ((((((((h6 | hC) | h1) | h2) | h3) | hd1) | hd2) | hcp) | hsm) | hty
  · rcases h6 with rfl | rfl | rfl | rfl | rfl | rfl
    · have hb2 : CAT "hasBatch" = CAT "hasContainerPositionAndQuantity" := hb
      exact (pred_clash hb2 (by decide)).elim
    · have hb2 : ALLORES "AFX_0000622" = CAT "hasContainerPositionAndQuantity" := hb
      exact (pred_clash hb2 (by decide)).elim
    · have hb2 : ALLORES "AFR_0002423" = CAT "hasContainerPositionAndQuantity" := hb
      exact (pred_clash hb2 (by decide)).elim
    · have hb2 : ALLORES "AFR_0001606" = CAT "hasContainerPositionAndQuantity" := hb
      exact (pred_clash hb2 (by decide)).elim
    · have hb2 : ALLORES "AFR_0001723" = CAT "hasContainerPositionAndQuantity" := hb
      exact (pred_clash hb2 (by decide)).elim
    · have hb2 : CAT "localEquipmentName" = CAT "hasContainerPositionAndQuantity" := hb
      exact (pred_clash hb2 (by decide)).elim
  · rcases optCprops_pred_mem t hC with he | he <;> rw [hb] at he <;>
      exact (pred_clash he.symm (by decide)).elim
  · rcases optObs_pred_mem t h1 with he | he | he <;> rw [hb] at he <;>
      exact (pred_clash he.symm (by decide)).elim
  · rcases optObs_pred_mem t h2 with he | he | he <;> rw [hb] at he <;>
      exact (pred_clash he.symm (by decide)).elim
  · rcases optObs_pred_mem t h3 with he | he | he <;> rw [hb] at he <;>
      exact (pred_clash he.symm (by decide)).elim
  · have he := optLit_pred_mem t hd1; rw [hb] at he
    exact (pred_clash he.symm (by decide)).elim
  · have he := optLit_pred_mem t hd2; rw [hb] at he
    exact (pred_clash he.symm (by decide)).elim
  · cases hE : a.has_container_position_and_quantity with
    | none => rw [hE] at hcp; simp [optCposList_triples] at hcp
    | some ps => simp [hE]
  · have he := optSample_pred_mem t hsm; rw [hb] at he
    exact (mem_clash he (by decide)).elim
  · subst hty
    have hb2 : RDF "type" = CAT "hasContainerPositionAndQuantity" := hb
    exact (pred_clash hb2 (by decide)).elim

/-- The sample link predicate only occurs when the sample field is
present. -/
theorem action_sample_pred (c : Nat) (s : Term) (a : Action) :
    ∀ t ∈ action_triples c s a, t.pred = CAT "hasSample" →
      a.has_sample ≠ none := by
  intro t ht hb
  simp only [action_triples, List.mem_append, List.mem_cons, List.not_mem_nil,
    or_false] at ht
  rcases ht with ((((((((h6 | hC) | h1) | h2) | h3) | hd1) | hd2) | hcp) | hsm) | hty
  · rcases h6 with rfl | rfl | rfl | rfl | rfl | rfl
    · have hb2 : CAT "hasBatch" = CAT "hasSample" := hb
      exact (pred_clash hb2 (by decide)).elim
    · have hb2 : ALLORES "AFX_0000622" = CAT "hasSample" := hb
      exact (pred_clash hb2 (by decide)).elim
    · have hb2 : ALLORES "AFR_0002423" = CAT "hasSample" := hb
      exact (pred_clash hb2 (by decide)).elim
    · have hb2 : ALLORES "AFR_0001606" = CAT "hasSample" := hb
      exact (pred_clash hb2 (by decide)).elim
    · have hb2 : ALLORES "AFR_0001723" = CAT "hasSample" := hb
      exact (pred_clash hb2 (by decide)).elim
    · have hb2 : CAT "localEquipmentName" = CAT "hasSample" := hb
      exact (pred_clash hb2 (by decide)).elim
  · rcases optCprops_pred_mem t hC with he | he <;> rw [hb] at he <;>
      exact (pred_clash he.symm (by decide)).elim
  · rcases optObs_pred_mem t h1 with he | he | he <;> rw [hb] at he <;>
      exact (pred_clash he.symm (by decide)).elim
  · rcases optObs_pred_mem t h2 with he | he | he <;> rw [hb] at he <;>
      exact (pred_clash he.symm (by decide)).elim
  · rcases optObs_pred_mem t h3 with he | he | he <;> rw [hb] at he <;>
      exact (pred_clash he.symm (by decide)).elim
  · have he := optLit_pred_mem t hd1; rw [hb] at he
    exact (pred_clash he.symm (by decide)).elim
  · have he := optLit_pred_mem t hd2; rw [hb] at he
    exact (pred_clash he.symm (by decide)).elim
  · have he := optCposList_pred_mem t hcp; rw [hb] at he
    exact (mem_clash he (by decide)).elim
  · cases hE : a.has_sample with
    | none => rw [hE] at hsm; simp [optSample_triples] at hsm
    | some smp => simp [hE]
  · subst hty
    have hb2 : RDF "type" = CAT "hasSample" := hb
    exact (pred_clash hb2 (by decide)).elim

/-- An absent expected datum yields no `cat:expectedDatum` triple on the
sample-item node. -/
theorem item_expectedDatum_none {c : Nat} {s : Term} {si : SampleItem}
    (hE : si.expected_datum = none) :
    ∀ t ∈ item_triples c s si, t.subj = Term.blankNode c →
      ¬ t.pred = CAT "expectedDatum" := by
  intro t ht hsub hpred
  simp only [item_triples, List.mem_append, List.mem_cons, List.not_mem_nil,
    or_false] at ht
  rcases ht with (((rfl | rfl | rfl) | hopt) | (rfl | rfl | rfl | rfl)) | hchem
  · have hp2 : RDF "type" = CAT "expectedDatum" := hpred
    exact pred_clash hp2 (by decide)
  · have hp2 : CAT "hasSample" = CAT "expectedDatum" := hpred
    exact pred_clash hp2 (by decide)
  · have hp2 : CAT "role" = CAT "expectedDatum" := hpred
    exact pred_clash hp2 (by decide)
  · rw [hE] at hopt; simp [optObs_triples] at hopt
  · have hp2 : CAT "role" = CAT "expectedDatum" := hpred
    exact pred_clash hp2 (by decide)
  · have hp2 : PURL "identifier" = CAT "expectedDatum" := hpred
    exact pred_clash hp2 (by decide)
  · have hp2 : ALLOQUAL "AFQ_0000111" = CAT "expectedDatum" := hpred
    exact pred_clash hp2 (by decide)
  · have hp2 : CAT "internalBarCode" = CAT "expectedDatum" := hpred
    exact pred_clash hp2 (by decide)
  · rcases chem_subj_profile t hchem with ⟨_, hp⟩ | ⟨k, hk, _⟩
    · rw [hpred] at hp; exact pred_clash hp.symm (by decide)
    · rw [hsub] at hk; simp at hk

/-- A present expected datum yields the `cat:expectedDatum` link from
the sample-item node to the fresh observation blank node. -/
theorem item_expectedDatum_some {c : Nat} {s : Term} {si : SampleItem} {e : Observation}
    (hE : si.expected_datum = some e) :
    (⟨Term.blankNode c, CAT "expectedDatum", Term.blankNode (c + 1)⟩ : Triple)
      ∈ item_triples c s si := by
  simp [item_triples, hE, optObs_triples, obs_triples]

/-- Each container position of a mapped list contributes a link triple
from the parent subject. -/
theorem cposList_link_mem {s : Term} (l : List ContainerPosition) :
    ∀ (c : Nat), ∀ cp ∈ l, ∃ k,
      (⟨s, CAT "hasContainerPositionAndQuantity", Term.blankNode k⟩ : Triple)
        ∈ cposList_triples c s l := by
  induction l with
  | nil => intro c cp hcp; simp at hcp
  | cons hd rest ih =>
      intro c cp hcp
      rcases List.mem_cons.mp hcp with rfl | hmem
      · exact ⟨c, by simp [cposList_triples, cpos_triples]⟩
      · rcases ih (c + 2) cp hmem with ⟨k, hk⟩
        exact ⟨k, by simp only [cposList_triples, List.mem_append]; exact Or.inr hk⟩

/-- Generic absence lemma: a predicate that differs from every mandatory
predicate and from every present optional field's predicate never occurs
on the action node. -/
theorem action_node_no_pred (c : Nat) (s : Term) (a : Action) {X : Term}
    (k1 : ((CAT "hasBatch" : Term) == X) = false)
    (k2 : ((ALLORES "AFX_0000622" : Term) == X) = false)
    (k3 : ((ALLORES "AFR_0002423" : Term) == X) = false)
    (k4 : ((ALLORES "AFR_0001606" : Term) == X) = false)
    (k5 : ((ALLORES "AFR_0001723" : Term) == X) = false)
    (k6 : ((CAT "localEquipmentName" : Term) == X) = false)
    (k7 : ((RDF "type" : Term) == X) = false)
    (kci : a.container_info = none ∨
      (((CAT "containerID" : Term) == X) = false ∧
        ((CAT "containerBarcode" : Term) == X) = false))
    (kts : a.temperature_shaker = none ∨
      ((CAT "temperatureShakerShape" : Term) == X) = false)
    (ktt : a.temperature_tumble_stirrer = none ∨
      ((CAT "temperatureTumbleStirrerShape" : Term) == X) = false)
    (kss : a.speed_shaker = none ∨ ((CAT "speedInRPM" : Term) == X) = false)
    (kdt : a.dispense_type = none ∨ ((CAT "dispenseType" : Term) == X) = false)
    (kds : a.dispense_state = none ∨ ((ALLOQUAL "AFQ_0000111" : Term) == X) = false)
    (kcp : a.has_container_position_and_quantity = none ∨
      ((CAT "hasContainerPositionAndQuantity" : Term) == X) = false)
    (ksm : a.has_sample = none ∨
      (((CAT "hasSample" : Term) == X) = false ∧ X ∉ chemInner)) :
    ∀ t ∈ action_triples c s a, t.subj = Term.namedNode (synthUri c) →
      ¬ t.pred = X := by
  intro t ht hsub hpred
  rcases action_subj_pred_mem c s a t ht hsub with
    h | h | h | h | h | h | h | ⟨hne, hp⟩ | ⟨hne, hp⟩ | ⟨hne, hp⟩ | ⟨hne, hp⟩ |
    ⟨hne, hp⟩ | ⟨hne, hp⟩ | ⟨hne, hp⟩ | ⟨hne, hp⟩
  · exact pred_clash (h.symm.trans hpred) k1
  · exact pred_clash (h.symm.trans hpred) k2
  · exact pred_clash (h.symm.trans hpred) k3
  · exact pred_clash (h.symm.trans hpred) k4
  · exact pred_clash (h.symm.trans hpred) k5
  · exact pred_clash (h.symm.trans hpred) k6
  · exact pred_clash (h.symm.trans hpred) k7
  · rcases kci with hnone | ⟨ka, kb⟩
    · exact hne hnone
    · rcases hp with hp | hp
      · exact pred_clash (hp.symm.trans hpred) ka
      · exact pred_clash (hp.symm.trans hpred) kb
  · rcases kts with hnone | ka
    · exact hne hnone
    · exact pred_clash (hp.symm.trans hpred) ka
  · rcases ktt with hnone | ka
    · exact hne hnone
    · exact pred_clash (hp.symm.trans hpred) ka
  · rcases kss with hnone | ka
    · exact hne hnone
    · exact pred_clash (hp.symm.trans hpred) ka
  · rcases kdt with hnone | ka
    · exact hne hnone
    · exact pred_clash (hp.symm.trans hpred) ka
  · rcases kds with hnone | ka
    · exact hne hnone
    · exact pred_clash (hp.symm.trans hpred) ka
  · rcases kcp with hnone | ka
    · exact hne hnone
    · exact pred_clash (hp.symm.trans hpred) ka
  · rcases ksm with hnone | ⟨ka, kb⟩
    · exact hne hnone
    · rcases hp with hp | hp
      · exact pred_clash (hp.symm.trans hpred) ka
      · rw [hpred] at hp; exact kb hp

/-! Blank-id accounting lemmas. -/

@[simp] theorem termBlankIds_blankNode (k : Nat) : termBlankIds (Term.blankNode k) = {k} := rfl

@[simp] theorem termBlankIds_namedNode (s : String) :
    termBlankIds (Term.namedNode s) = ∅ := rfl

@[simp] theorem termBlankIds_literal (s d : String) :
    termBlankIds (Term.literal s d) = ∅ := rfl

@[simp] theorem termBlankIds_strLit (s : String) : termBlankIds (strLit s) = ∅ := rfl

@[simp] theorem termBlankIds_numLit (v : Int) : termBlankIds (numLit v) = ∅ := rfl

@[simp] theorem termBlankIds_CAT (l : String) : termBlankIds (CAT l) = ∅ := rfl

@[simp] theorem termBlankIds_SCHEMA (l : String) : termBlankIds (SCHEMA l) = ∅ := rfl

@[simp] theorem termBlankIds_ALLORES (l : String) : termBlankIds (ALLORES l) = ∅ := rfl

@[simp] theorem termBlankIds_ALLOQUAL (l : String) : termBlankIds (ALLOQUAL l) = ∅ := rfl

@[simp] theorem termBlankIds_QUDT (l : String) : termBlankIds (QUDT l) = ∅ := rfl

@[simp] theorem termBlankIds_PURL (l : String) : termBlankIds (PURL l) = ∅ := rfl

@[simp] theorem termBlankIds_OBO (l : String) : termBlankIds (OBO l) = ∅ := rfl

@[simp] theorem termBlankIds_RDF (l : String) : termBlankIds (RDF l) = ∅ := rfl

/-- Blank ids of an appended triple list. -/
theorem blankIds_append (l1 l2 : List Triple) :
    blankIds (l1 ++ l2) = blankIds l1 ∪ blankIds l2 := by
  induction l1 with
  | nil => simp [blankIds]
  | cons t rest ih => simp [blankIds, ih, Finset.union_assoc]

/-- Blank ids of the action-class term are empty (all classes named). -/
theorem termBlankIds_actionClass (a : Action) : termBlankIds (actionClass a) = ∅ := by
  cases h : a.action_name <;> simp [actionClass, h]

/-- Blank-id sandwich for an observation chunk. -/
theorem obs_blank (c : Nat) (s p : Term) (o : Observation) (hp : termBlankIds p = ∅) :
    ({c} : Finset Nat) ⊆ blankIds (obs_triples c s p o) ∧
    blankIds (obs_triples c s p o) ⊆ termBlankIds s ∪ {c} := by
  constructor
  · intro x hx
    simp only [Finset.mem_singleton] at hx
    subst hx
    simp [obs_triples, blankIds, tripleBlankIds]
  · intro x hx
    simp [obs_triples, blankIds, tripleBlankIds, hp] at hx ⊢
    tauto

/-- Blank-id sandwich for an optional observation chunk. -/
theorem optObs_blank (c : Nat) (s p : Term) (o? : Option Observation)
    (hp : termBlankIds p = ∅) :
    optObsS c o? ⊆ blankIds (optObs_triples c s p o?) ∧
    blankIds (optObs_triples c s p o?) ⊆ termBlankIds s ∪ optObsS c o? := by
  cases o? with
  | none => simp [optObs_triples, optObsS, blankIds]
  | some o => simpa [optObs_triples, optObsS] using obs_blank c s p o hp

/-- Container-property chunks mint no blank node. -/
theorem cprops_blank (s : Term) (ci : ContainerInfo) :
    blankIds (cprops_triples s ci) ⊆ termBlankIds s := by
  intro x hx
  simp [cprops_triples, blankIds, tripleBlankIds] at hx ⊢
  tauto

/-- Optional container-property chunks mint no blank node. -/
theorem optCprops_blank (s : Term) (ci? : Option ContainerInfo) :
    blankIds (optCprops_triples s ci?) ⊆ termBlankIds s := by
  cases ci? with
  | none => simp [optCprops_triples, blankIds]
  | some ci => simpa [optCprops_triples] using cprops_blank s ci

/-- Optional literal chunks mint no blank node. -/
theorem optLit_blank (s p : Term) (v? : Option String) :
    blankIds (optLit_triples s p v?) ⊆ termBlankIds s ∪ termBlankIds p := by
  cases v? with
  | none => simp [optLit_triples, blankIds]
  | some v =>
      intro x hx
      simp [optLit_triples, blankIds, tripleBlankIds] at hx ⊢
      tauto

/-- Chemical chunks mint no blank node. -/
theorem chem_blank (c : Nat) (s : Term) (ch : Chemical) :
    blankIds (chem_triples c s ch) ⊆ termBlankIds s := by
  intro x hx
  simp [chem_triples, blankIds, tripleBlankIds] at hx ⊢
  tauto

/-- Blank-id sandwich for a container-position chunk. -/
theorem cpos_blank (c : Nat) (s : Term) (cp : ContainerPosition) :
    ({c, c + 1} : Finset Nat) ⊆ blankIds (cpos_triples c s cp) ∧
    blankIds (cpos_triples c s cp) ⊆ termBlankIds s ∪ {c, c + 1} := by
  constructor
  · intro x hx
    simp only [Finset.mem_insert, Finset.mem_singleton] at hx
    rcases hx with rfl | rfl <;>
      simp [cpos_triples, obs_triples, blankIds_append, blankIds, tripleBlankIds]
  · intro x hx
    simp [cpos_triples, obs_triples, blankIds_append, blankIds, tripleBlankIds] at hx ⊢
    tauto

/-- Blank-id sandwich for a container-position list chunk. -/
theorem cposList_blank (s : Term) (l : List ContainerPosition) :
    ∀ c : Nat,
      cposListS c l ⊆ blankIds (cposList_triples c s l) ∧
      blankIds (cposList_triples c s l) ⊆ termBlankIds s ∪ cposListS c l := by
  induction l with
  | nil => intro c; simp [cposList_triples, cposListS, blankIds]
  | cons cp rest ih =>
      intro c
      constructor
      · intro x hx
        simp only [cposListS, Finset.mem_union] at hx
        simp only [cposList_triples, blankIds_append, Finset.mem_union]
        rcases hx with hx | hx
        · exact Or.inl ((cpos_blank c s cp).1 hx)
        · exact Or.inr ((ih (c + 2)).1 hx)
      · intro x hx
        simp only [cposList_triples, blankIds_append, Finset.mem_union] at hx
        rcases hx with hx | hx
        · have h := (cpos_blank c s cp).2 hx
          simp only [Finset.mem_union] at h
          simp only [cposListS, Finset.mem_union]
          tauto
        · have h := (ih (c + 2)).2 hx
          simp only [Finset.mem_union] at h
          simp only [cposListS, Finset.mem_union]
          tauto

/-- Blank-id sandwich for an optional container-position list chunk. -/
theorem optCpos_blank (c : Nat) (s : Term) (l? : Option (List ContainerPosition)) :
    optCposS c l? ⊆ blankIds (optCposList_triples c s l?) ∧
    blankIds (optCposList_triples c s l?) ⊆ termBlankIds s ∪ optCposS c l? := by
  cases l? with
  | none => simp [optCposList_triples, optCposS, blankIds]
  | some l => simpa [optCposList_triples, optCposS] using cposList_blank s l c

/-- Blank-id sandwich for a sample-item chunk. -/
theorem item_blank (c : Nat) (s : Term) (si : SampleItem) :
    itemS c si ⊆ blankIds (item_triples c s si) ∧
    blankIds (item_triples c s si) ⊆ termBlankIds s ∪ itemS c si := by
  constructor
  · intro x hx
    simp only [itemS, Finset.mem_union, Finset.mem_singleton] at hx
    rcases hx with rfl | hx
    · simp [item_triples, blankIds_append, blankIds, tripleBlankIds]
    · have h := (optObs_blank (c + 1) (Term.blankNode c) (CAT "expectedDatum")
        si.expected_datum rfl).1 hx
      simp only [item_triples, blankIds_append, Finset.mem_union]
      tauto
  · intro x hx
    simp only [item_triples, blankIds_append, Finset.mem_union] at hx
    rcases hx with ((hx | hx) | hx) | hx
    · revert hx
      simp [blankIds, tripleBlankIds, itemS]
      tauto
    · have h := (optObs_blank (c + 1) (Term.blankNode c) (CAT "expectedDatum")
        si.expected_datum rfl).2 hx
      simp only [Finset.mem_union, termBlankIds_blankNode, Finset.mem_singleton] at h
      simp [itemS]
      tauto
    · revert hx
      simp [blankIds, tripleBlankIds, itemS]
      tauto
    · have h := chem_blank (c + 1 + oMints si.expected_datum) (Term.blankNode c)
        si.has_chemical hx
      simp only [termBlankIds_blankNode, Finset.mem_singleton] at h
      simp [itemS, h]

/-- Blank-id sandwich for a sample-item list chunk. -/
theorem items_blank (s : Term) (l : List SampleItem) :
    ∀ c : Nat,
      itemsS c l ⊆ blankIds (items_triples c s l) ∧
      blankIds (items_triples c s l) ⊆ termBlankIds s ∪ itemsS c l := by
  induction l with
  | nil => intro c; simp [items_triples, itemsS, blankIds]
  | cons si rest ih =>
      intro c
      constructor
      · intro x hx
        simp only [itemsS, Finset.mem_union] at hx
        simp only [items_triples, blankIds_append, Finset.mem_union]
        rcases hx with hx | hx
        · exact Or.inl ((item_blank c s si).1 hx)
        · exact Or.inr ((ih (c + item_mints si)).1 hx)
      · intro x hx
        simp only [items_triples, blankIds_append, Finset.mem_union] at hx
        rcases hx with hx | hx
        · have h := (item_blank c s si).2 hx
          simp only [Finset.mem_union] at h
          simp only [itemsS, Finset.mem_union]
          tauto
        · have h := (ih (c + item_mints si)).2 hx
          simp only [Finset.mem_union] at h
          simp only [itemsS, Finset.mem_union]
          tauto

/-- Blank-id sandwich for a sample chunk. -/
theorem sample_blank (c : Nat) (s : Term) (smp : Sample) :
    sampleS c smp ⊆ blankIds (sample_triples c s smp) ∧
    blankIds (sample_triples c s smp) ⊆ termBlankIds s ∪ sampleS c smp := by
  constructor
  · intro x hx
    simp only [sampleS, Finset.mem_union, Finset.mem_insert, Finset.mem_singleton] at hx
    rcases hx with (rfl | rfl) | hx
    · simp [sample_triples, blankIds_append, blankIds, tripleBlankIds]
    · have h := (obs_blank (c + 1) (Term.blankNode c) (CAT "expectedDatum")
        smp.expected_datum rfl).1 (by simp : (c + 1) ∈ ({c + 1} : Finset Nat))
      simp only [sample_triples, blankIds_append, Finset.mem_union]
      tauto
    · have h := (items_blank (Term.blankNode c) smp.has_sample (c + 2)).1 hx
      simp only [sample_triples, blankIds_append, Finset.mem_union]
      tauto
  · intro x hx
    simp only [sample_triples, blankIds_append, Finset.mem_union] at hx
    rcases hx with (((hx | hx) | hx) | hx) | hx
    · revert hx
      simp [blankIds, tripleBlankIds, sampleS]
      tauto
    · have h := cprops_blank (Term.blankNode c) smp.container hx
      simp only [termBlankIds_blankNode, Finset.mem_singleton] at h
      simp [sampleS, h]
    · have h := (obs_blank (c + 1) (Term.blankNode c) (CAT "expectedDatum")
        smp.expected_datum rfl).2 hx
      simp only [Finset.mem_union, termBlankIds_blankNode, Finset.mem_singleton] at h
      simp [sampleS]
      tauto
    · revert hx
      simp [blankIds, tripleBlankIds, sampleS]
      tauto
    · have h := (items_blank (Term.blankNode c) smp.has_sample (c + 2)).2 hx
      simp only [Finset.mem_union, termBlankIds_blankNode, Finset.mem_singleton] at h
      simp [sampleS]
      tauto

/-- Blank-id sandwich for an optional sample chunk. -/
theorem optSample_blank (c : Nat) (s : Term) (smp? : Option Sample) :
    optSampleS c smp? ⊆ blankIds (optSample_triples c s smp?) ∧
    blankIds (optSample_triples c s smp?) ⊆ termBlankIds s ∪ optSampleS c smp? := by
  cases smp? with
  | none => simp [optSample_triples, optSampleS, blankIds]
  | some smp => simpa [optSample_triples, optSampleS] using sample_blank c s smp

/-- Blank-id sandwich for an action chunk. -/
theorem action_blank (c : Nat) (s : Term) (a : Action) :
    actionS c a ⊆ blankIds (action_triples c s a) ∧
    blankIds (action_triples c s a) ⊆ termBlankIds s ∪ actionS c a := by
  constructor
  · intro x hx
    simp only [actionS, Finset.mem_union] at hx
    simp only [action_triples, blankIds_append, Finset.mem_union]
    rcases hx with ((((hx | hx) | hx) | hx) | hx)
    · have h := (optObs_blank (c + 1) (Term.namedNode (synthUri c))
        (CAT "temperatureShakerShape") a.temperature_shaker rfl).1 hx
      tauto
    · have h := (optObs_blank (c + 1 + oMints a.temperature_shaker)
        (Term.namedNode (synthUri c)) (CAT "temperatureTumbleStirrerShape")
        a.temperature_tumble_stirrer rfl).1 hx
      tauto
    · have h := (optObs_blank (c + 1 + oMints a.temperature_shaker
        + oMints a.temperature_tumble_stirrer) (Term.namedNode (synthUri c))
        (CAT "speedInRPM") a.speed_shaker rfl).1 hx
      tauto
    · have h := (optCpos_blank (c + 1 + oMints a.temperature_shaker
        + oMints a.temperature_tumble_stirrer + oMints a.speed_shaker)
        (Term.namedNode (synthUri c)) a.has_container_position_and_quantity).1 hx
      tauto
    · have h := (optSample_blank (c + 1 + oMints a.temperature_shaker
        + oMints a.temperature_tumble_stirrer + oMints a.speed_shaker
        + oCposMints a.has_container_position_and_quantity)
        (Term.namedNode (synthUri c)) a.has_sample).1 hx
      tauto
  · intro x hx
    simp only [action_triples, blankIds_append, Finset.mem_union] at hx
    rcases hx with ((((((((h6 | hC) | h1) | h2) | h3) | hd1) | hd2) | hcp) | hsm) | hty
    · revert h6
      simp [blankIds, tripleBlankIds, actionS]
      tauto
    · have h := optCprops_blank (Term.namedNode (synthUri c)) a.container_info hC
      simp at h
    · have h := (optObs_blank (c + 1) (Term.namedNode (synthUri c))
        (CAT "temperatureShakerShape") a.temperature_shaker rfl).2 h1
      simp only [Finset.mem_union, termBlankIds_namedNode, Finset.not_mem_empty,
        false_or] at h
      simp [actionS]
      tauto
    · have h := (optObs_blank (c + 1 + oMints a.temperature_shaker)
        (Term.namedNode (synthUri c)) (CAT "temperatureTumbleStirrerShape")
        a.temperature_tumble_stirrer rfl).2 h2
      simp only [Finset.mem_union, termBlankIds_namedNode, Finset.not_mem_empty,
        false_or] at h
      simp [actionS]
      tauto
    · have h := (optObs_blank (c + 1 + oMints a.temperature_shaker
        + oMints a.temperature_tumble_stirrer) (Term.namedNode (synthUri c))
        (CAT "speedInRPM") a.speed_shaker rfl).2 h3
      simp only [Finset.mem_union, termBlankIds_namedNode, Finset.not_mem_empty,
        false_or] at h
      simp [actionS]
      tauto
    · have h := optLit_blank (Term.namedNode (synthUri c)) (CAT "dispenseType")
        a.dispense_type hd1
      simp at h
    · have h := optLit_blank (Term.namedNode (synthUri c)) (ALLOQUAL "AFQ_0000111")
        a.dispense_state hd2
      simp at h
    · have h := (optCpos_blank (c + 1 + oMints a.temperature_shaker
        + oMints a.temperature_tumble_stirrer + oMints a.speed_shaker)
        (Term.namedNode (synthUri c)) a.has_container_position_and_quantity).2 hcp
      simp only [Finset.mem_union, termBlankIds_namedNode, Finset.not_mem_empty,
        false_or] at h
      simp [actionS]
      tauto
    · have h := (optSample_blank (c + 1 + oMints a.temperature_shaker
        + oMints a.temperature_tumble_stirrer + oMints a.speed_shaker
        + oCposMints a.has_container_position_and_quantity)
        (Term.namedNode (synthUri c)) a.has_sample).2 hsm
      simp only [Finset.mem_union, termBlankIds_namedNode, Finset.not_mem_empty,
        false_or] at h
      simp [actionS]
      tauto
    · revert hty
      simp [blankIds, tripleBlankIds, termBlankIds_actionClass]

/-- Blank-id sandwich for an action list chunk. -/
theorem actions_blank (s : Term) (l : List Action) :
    ∀ c : Nat,
      actionsS c l ⊆ blankIds (actions_triples c s l) ∧
      blankIds (actions_triples c s l) ⊆ termBlankIds s ∪ actionsS c l := by
  induction l with
  | nil => intro c; simp [actions_triples, actionsS, blankIds]
  | cons a rest ih =>
      intro c
      constructor
      · intro x hx
        simp only [actionsS, Finset.mem_union] at hx
        simp only [actions_triples, blankIds_append, Finset.mem_union]
        rcases hx with hx | hx
        · exact Or.inl ((action_blank c s a).1 hx)
        · exact Or.inr ((ih (c + action_mints a)).1 hx)
      · intro x hx
        simp only [actions_triples, blankIds_append, Finset.mem_union] at hx
        rcases hx with hx | hx
        · have h := (action_blank c s a).2 hx
          simp only [Finset.mem_union] at h
          simp only [actionsS, Finset.mem_union]
          tauto
        · have h := (ih (c + action_mints a)).2 hx
          simp only [Finset.mem_union] at h
          simp only [actionsS, Finset.mem_union]
          tauto

/-- Exact blank-id set of a whole conversion's triples. -/
theorem batch_blank (c : Nat) (b : Batch) :
    blankIds (batch_triples c b) = {c} ∪ actionsS (c + 1) b.actions := by
  apply Finset.Subset.antisymm
  · intro x hx
    simp only [batch_triples, blankIds_append, Finset.mem_union] at hx
    rcases hx with hx | hx
    · revert hx
      simp [blankIds, tripleBlankIds]
      tauto
    · have h := (actions_blank (Term.blankNode c) b.actions (c + 1)).2 hx
      simp only [Finset.mem_union, termBlankIds_blankNode, Finset.mem_singleton] at h
      simp
      tauto
  · intro x hx
    simp only [Finset.mem_union, Finset.mem_singleton] at hx
    simp only [batch_triples, blankIds_append, Finset.mem_union]
    rcases hx with rfl | hx
    · left
      simp [blankIds, tripleBlankIds]
    · exact Or.inr ((actions_blank (Term.blankNode c) b.actions (c + 1)).1 hx)

/-- Two sets contained in consecutive ranges have a union in the joint
range. -/
theorem union_range {A B : Finset Nat} (a b c : Nat) (hA : A ⊆ Finset.Ico a b)
    (hB : B ⊆ Finset.Ico b c) (h1 : a ≤ b) (h2 : b ≤ c) :
    A ∪ B ⊆ Finset.Ico a c := by
  intro x hx
  rcases Finset.mem_union.mp hx with h | h
  · have hh := hA h
    simp only [Finset.mem_Ico] at hh ⊢
    omega
  · have hh := hB h
    simp only [Finset.mem_Ico] at hh ⊢
    omega

/-- Two sets contained in consecutive ranges are disjoint, so the union
cardinality adds. -/
theorem card_union_ranges {A B : Finset Nat} (a b c : Nat) (hA : A ⊆ Finset.Ico a b)
    (hB : B ⊆ Finset.Ico b c) : (A ∪ B).card = A.card + B.card := by
  rw [Finset.card_union_of_disjoint]
  exact Finset.disjoint_left.mpr fun x h1 h2 => by
    have ha := hA h1
    have hb := hB h2
    simp only [Finset.mem_Ico] at ha hb
    omega

/-- Range of the blank ids minted by an optional observation. -/
theorem optObsS_range (c : Nat) (o? : Option Observation) :
    optObsS c o? ⊆ Finset.Ico c (c + oMints o?) := by
  cases o? with
  | none => simp [optObsS]
  | some o =>
      intro x hx
      simp only [optObsS, Finset.mem_singleton] at hx
      subst hx
      simp [oMints, Finset.mem_Ico]

/-- Range of the blank ids minted by a container-position list. -/
theorem cposListS_range (l : List ContainerPosition) :
    ∀ c : Nat, cposListS c l ⊆ Finset.Ico c (c + cposList_mints l) := by
  induction l with
  | nil => intro c; simp [cposListS]
  | cons cp rest ih =>
      intro c x hx
      simp only [cposListS, Finset.mem_union, Finset.mem_insert,
        Finset.mem_singleton] at hx
      simp only [Finset.mem_Ico, cposList_mints]
      rcases hx with (rfl | rfl) | hx
      · omega
      · omega
      · have hh := ih (c + 2) hx
        simp only [Finset.mem_Ico] at hh
        omega

/-- Range of the blank ids minted by an optional container-position
list. -/
theorem optCposS_range (c : Nat) (l? : Option (List ContainerPosition)) :
    optCposS c l? ⊆ Finset.Ico c (c + oCposMints l?) := by
  cases l? with
  | none => simp [optCposS]
  | some l => simpa [optCposS, oCposMints] using cposListS_range l c

/-- Range of the blank ids minted by a sample item. -/
theorem itemS_range (c : Nat) (si : SampleItem) :
    itemS c si ⊆ Finset.Ico c (c + item_mints si) := by
  intro x hx
  simp only [itemS, Finset.mem_union, Finset.mem_singleton] at hx
  simp only [Finset.mem_Ico, item_mints]
  rcases hx with rfl | hx
  · omega
  · have hh := optObsS_range (c + 1) si.expected_datum hx
    simp only [Finset.mem_Ico] at hh
    omega

/-- Range of the blank ids minted by a sample-item list. -/
theorem itemsS_range (l : List SampleItem) :
    ∀ c : Nat, itemsS c l ⊆ Finset.Ico c (c + items_mints l) := by
  induction l with
  | nil => intro c; simp [itemsS]
  | cons si rest ih =>
      intro c x hx
      simp only [itemsS, Finset.mem_union] at hx
      simp only [Finset.mem_Ico, items_mints]
      rcases hx with hx | hx
      · have hh := itemS_range c si hx
        simp only [Finset.mem_Ico] at hh
        omega
      · have hh := ih (c + item_mints si) hx
        simp only [Finset.mem_Ico] at hh
        omega

/-- Range of the blank ids minted by a sample. -/
theorem sampleS_range (c : Nat) (smp : Sample) :
    sampleS c smp ⊆ Finset.Ico c (c + sample_mints smp) := by
  intro x hx
  simp only [sampleS, Finset.mem_union, Finset.mem_insert, Finset.mem_singleton] at hx
  simp only [Finset.mem_Ico, sample_mints]
  rcases hx with (rfl | rfl) | hx
  · omega
  · omega
  · have hh := itemsS_range smp.has_sample (c + 2) hx
    simp only [Finset.mem_Ico] at hh
    omega

/-- Range of the blank ids minted by an optional sample. -/
theorem optSampleS_range (c : Nat) (smp? : Option Sample) :
    optSampleS c smp? ⊆ Finset.Ico c (c + oSampleMints smp?) := by
  cases smp? with
  | none => simp [optSampleS]
  | some smp => simpa [optSampleS, oSampleMints] using sampleS_range c smp

/-- Range of the blank ids minted by an action. -/
theorem actionS_range (c : Nat) (a : Action) :
    actionS c a ⊆ Finset.Ico c (c + action_mints a) := by
  intro x hx
  simp only [actionS, Finset.mem_union] at hx
  simp only [Finset.mem_Ico, action_mints]
  rcases hx with ((((hx | hx) | hx) | hx) | hx)
  · have hh := optObsS_range (c + 1) a.temperature_shaker hx
    simp only [Finset.mem_Ico] at hh
    omega
  · have hh := optObsS_range (c + 1 + oMints a.temperature_shaker)
      a.temperature_tumble_stirrer hx
    simp only [Finset.mem_Ico] at hh
    omega
  · have hh := optObsS_range (c + 1 + oMints a.temperature_shaker
      + oMints a.temperature_tumble_stirrer) a.speed_shaker hx
    simp only [Finset.mem_Ico] at hh
    omega
  · have hh := optCposS_range (c + 1 + oMints a.temperature_shaker
      + oMints a.temperature_tumble_stirrer + oMints a.speed_shaker)
      a.has_container_position_and_quantity hx
    simp only [Finset.mem_Ico] at hh
    omega
  · have hh := optSampleS_range (c + 1 + oMints a.temperature_shaker
      + oMints a.temperature_tumble_stirrer + oMints a.speed_shaker
      + oCposMints a.has_container_position_and_quantity) a.has_sample hx
    simp only [Finset.mem_Ico] at hh
    omega

/-- Range of the blank ids minted by an action list. -/
theorem actionsS_range (l : List Action) :
    ∀ c : Nat, actionsS c l ⊆ Finset.Ico c (c + actions_mints l) := by
  induction l with
  | nil => intro c; simp [actionsS]
  | cons a rest ih =>
      intro c x hx
      simp only [actionsS, Finset.mem_union] at hx
      simp only [Finset.mem_Ico, actions_mints]
      rcases hx with hx | hx
      · have hh := actionS_range c a hx
        simp only [Finset.mem_Ico] at hh
        omega
      · have hh := ih (c + action_mints a) hx
        simp only [Finset.mem_Ico] at hh
        omega

/-- Cardinality of the optional-observation blank set. -/
theorem optObsS_card (c : Nat) (o? : Option Observation) :
    (optObsS c o?).card = oMints o? := by
  cases o? <;> simp [optObsS, oMints]

/-- Containment of a pair in its two-element range. -/
theorem pair_range (c : Nat) : ({c, c + 1} : Finset Nat) ⊆ Finset.Ico c (c + 2) := by
  intro x hx
  simp only [Finset.mem_insert, Finset.mem_singleton] at hx
  simp only [Finset.mem_Ico]
  rcases hx with rfl | rfl <;> omega

/-- Cardinality of a consecutive pair. -/
theorem pair_card (c : Nat) : ({c, c + 1} : Finset Nat).card = 2 := by
  rw [Finset.card_insert_of_not_mem (by simp)]
  simp

/-- Cardinality of the container-position-list blank set. -/
theorem cposListS_card (l : List ContainerPosition) :
    ∀ c : Nat, (cposListS c l).card = cposList_mints l := by
  induction l with
  | nil => intro c; simp [cposListS, cposList_mints]
  | cons cp rest ih =>
      intro c
      have hcard := card_union_ranges c (c + 2) (c + 2 + cposList_mints rest)
        (pair_range c) (cposListS_range rest (c + 2))
      calc (cposListS c (cp :: rest)).card
          = ({c, c + 1} ∪ cposListS (c + 2) rest).card := by rw [cposListS]
        _ = ({c, c + 1} : Finset Nat).card + (cposListS (c + 2) rest).card := hcard
        _ = cposList_mints (cp :: rest) := by
            rw [pair_card, ih (c + 2), cposList_mints]

/-- Cardinality of the optional container-position blank set. -/
theorem optCposS_card (c : Nat) (l? : Option (List ContainerPosition)) :
    (optCposS c l?).card = oCposMints l? := by
  cases l? with
  | none => simp [optCposS, oCposMints]
  | some l => simpa [optCposS, oCposMints] using cposListS_card l c

/-- Cardinality of the sample-item blank set. -/
theorem itemS_card (c : Nat) (si : SampleItem) :
    (itemS c si).card = item_blanks si := by
  have hcard := card_union_ranges c (c + 1) (c + 1 + oMints si.expected_datum)
    (show ({c} : Finset Nat) ⊆ Finset.Ico c (c + 1) from
      Finset.singleton_subset_iff.mpr (Finset.mem_Ico.mpr (by omega)))
    (optObsS_range (c + 1) si.expected_datum)
  calc (itemS c si).card
      = ({c} : Finset Nat).card + (optObsS (c + 1) si.expected_datum).card := by
        rw [itemS]; exact hcard
    _ = item_blanks si := by
        rw [Finset.card_singleton, optObsS_card, item_blanks]

/-- Cardinality of the sample-item-list blank set. -/
theorem itemsS_card (l : List SampleItem) :
    ∀ c : Nat, (itemsS c l).card = items_blanks l := by
  induction l with
  | nil => intro c; simp [itemsS, items_blanks]
  | cons si rest ih =>
      intro c
      have hcard := card_union_ranges c (c + item_mints si)
        (c + item_mints si + items_mints rest)
        (itemS_range c si) (itemsS_range rest (c + item_mints si))
      calc (itemsS c (si :: rest)).card
          = (itemS c si).card + (itemsS (c + item_mints si) rest).card := by
            rw [itemsS]; exact hcard
        _ = items_blanks (si :: rest) := by
            rw [itemS_card, ih (c + item_mints si), items_blanks]

/-- Cardinality of the sample blank set. -/
theorem sampleS_card (c : Nat) (smp : Sample) :
    (sampleS c smp).card = sample_blanks smp := by
  have hcard := card_union_ranges c (c + 2) (c + 2 + items_mints smp.has_sample)
    (pair_range c) (itemsS_range smp.has_sample (c + 2))
  calc (sampleS c smp).card
      = ({c, c + 1} : Finset Nat).card + (itemsS (c + 2) smp.has_sample).card := by
        rw [sampleS]; exact hcard
    _ = sample_blanks smp := by
        rw [pair_card, itemsS_card smp.has_sample (c + 2), sample_blanks]

/-- Cardinality of the optional-sample blank set. -/
theorem optSampleS_card (c : Nat) (smp? : Option Sample) :
    (optSampleS c smp?).card = oSampleBlanks smp? := by
  cases smp? with
  | none => simp [optSampleS, oSampleBlanks]
  | some smp => simpa [optSampleS, oSampleBlanks] using sampleS_card c smp

/-- Cardinality of the action blank set. -/
theorem actionS_card (c : Nat) (a : Action) :
    (actionS c a).card = action_blanks a := by
  have r1 := optObsS_range (c + 1) a.temperature_shaker
  have r2 := optObsS_range (c + 1 + oMints a.temperature_shaker)
    a.temperature_tumble_stirrer
  have r3 := optObsS_range (c + 1 + oMints a.temperature_shaker
    + oMints a.temperature_tumble_stirrer) a.speed_shaker
  have r4 := optCposS_range (c + 1 + oMints a.temperature_shaker
    + oMints a.temperature_tumble_stirrer + oMints a.speed_shaker)
    a.has_container_position_and_quantity
  have r5 := optSampleS_range (c + 1 + oMints a.temperature_shaker
    + oMints a.temperature_tumble_stirrer + oMints a.speed_shaker
    + oCposMints a.has_container_position_and_quantity) a.has_sample
  have u12 := union_range _ _ _ r1 r2 (by omega) (by omega)
  have c12 := card_union_ranges _ _ _ r1 r2
  have u123 := union_range _ _ _ u12 r3 (by omega) (by omega)
  have c123 := card_union_ranges _ _ _ u12 r3
  have u1234 := union_range _ _ _ u123 r4 (by omega) (by omega)
  have c1234 := card_union_ranges _ _ _ u123 r4
  have c12345 := card_union_ranges _ _ _ u1234 r5
  calc (actionS c a).card
      = (optObsS (c + 1) a.temperature_shaker
          ∪ optObsS (c + 1 + oMints a.temperature_shaker) a.temperature_tumble_stirrer
          ∪ optObsS (c + 1 + oMints a.temperature_shaker
              + oMints a.temperature_tumble_stirrer) a.speed_shaker
          ∪ optCposS (c + 1 + oMints a.temperature_shaker
              + oMints a.temperature_tumble_stirrer + oMints a.speed_shaker)
              a.has_container_position_and_quantity).card
        + (optSampleS (c + 1 + oMints a.temperature_shaker
            + oMints a.temperature_tumble_stirrer + oMints a.speed_shaker
            + oCposMints a.has_container_position_and_quantity) a.has_sample).card := by
        rw [actionS]; exact c12345
    _ = action_blanks a := by
        rw [c1234, c123, c12, optObsS_card, optObsS_card, optObsS_card, optCposS_card,
          optSampleS_card, action_blanks]

/-- Cardinality of the action-list blank set. -/
theorem actionsS_card (l : List Action) :
    ∀ c : Nat, (actionsS c l).card = actions_blanks l := by
  induction l with
  | nil => intro c; simp [actionsS, actions_blanks]
  | cons a rest ih =>
      intro c
      have hcard := card_union_ranges c (c + action_mints a)
        (c + action_mints a + actions_mints rest)
        (actionS_range c a) (actionsS_range rest (c + action_mints a))
      calc (actionsS c (a :: rest)).card
          = (actionS c a).card + (actionsS (c + action_mints a) rest).card := by
            rw [actionsS]; exact hcard
        _ = actions_blanks (a :: rest) := by
            rw [actionS_card, ih (c + action_mints a), actions_blanks]

/-! Claim theorems. -/

/-- C10: `GraphBuilder::new` never returns an error: every invocation
returns `Ok` with a builder holding an empty graph, even though its
return type is a `Result`. -/
theorem C10_new_never_errs :
    GraphBuilder.new = .ok { graph := [], counter := 0 } := rfl

/-- C5: a measured quantity handed to `insert_an_observation` (the one
routine behind temperature, speed, expected datum and container
quantity) is mapped to a fresh blank node carrying exactly two triples —
the unit string and the numeric value — and the parent subject is linked
to that blank node, never to an inlined literal. -/
theorem C5_observation_encoding (g : GraphBuilder) {s p : Term} (o : Observation)
    (hs : s.isLiteralT = false) (hp : p.isNamed = true) :
    g.insert_an_observation s p o =
      .ok { graph := g.graph ++
              [⟨s, p, .blankNode g.counter⟩,
               ⟨.blankNode g.counter, QUDT "unit", strLit o.unit⟩,
               ⟨.blankNode g.counter, QUDT "value", numLit o.value⟩],
            counter := g.counter + 1 } := by
  rw [insert_an_observation_nf g o hs hp]; rfl

/-- Closed witness for `C5_observation_encoding`. -/
theorem C5_observation_encoding_witness :
    (Term.blankNode 0).isLiteralT = false ∧ (QUDT "quantity").isNamed = true ∧
    GraphBuilder.insert_an_observation ⟨[], 1⟩ (.blankNode 0) (QUDT "quantity") ⟨"mg", 5⟩ =
      .ok { graph := [⟨.blankNode 0, QUDT "quantity", .blankNode 1⟩,
                      ⟨.blankNode 1, QUDT "unit", strLit "mg"⟩,
                      ⟨.blankNode 1, QUDT "value", numLit 5⟩],
            counter := 2 } :=
  ⟨rfl, rfl, C5_observation_encoding ⟨[], 1⟩ ⟨"mg", 5⟩ rfl rfl⟩

/-- C6: the store performs no deduplication: every successful insert
appends exactly one entry (size grows by one), and inserting the very
same triple twice yields two distinct entries (multiset semantics). -/
theorem C6_no_dedup (g : GraphBuilder) {s p : Term} (o : Term)
    (hs : s.isLiteralT = false) (hp : p.isNamed = true) :
    (∃ g1, g.insert s p o = .ok g1 ∧ g1.graph = g.graph ++ [⟨s, p, o⟩] ∧
      g1.graph.length = g.graph.length + 1) ∧
    (g.insert s p o >>= fun g1 => g1.insert s p o) =
      .ok { graph := g.graph ++ [⟨s, p, o⟩, ⟨s, p, o⟩], counter := g.counter } := by
  refine ⟨⟨_, insert_ok g o hs hp, rfl, by simp⟩, ?_⟩
  rw [insert_ok g o hs hp, ok_bind, insert_ok _ o hs hp]
  simp

/-- Closed witness for `C6_no_dedup`. -/
theorem C6_no_dedup_witness :
    (Term.blankNode 0).isLiteralT = false ∧ (CAT "role").isNamed = true ∧
    ((∃ g1, GraphBuilder.insert ⟨[], 0⟩ (.blankNode 0) (CAT "role") (strLit "r") = .ok g1 ∧
        g1.graph = ([] : List Triple) ++ [⟨.blankNode 0, CAT "role", strLit "r"⟩] ∧
        g1.graph.length = ([] : List Triple).length + 1) ∧
      (GraphBuilder.insert ⟨[], 0⟩ (.blankNode 0) (CAT "role") (strLit "r") >>= fun g1 =>
          g1.insert (.blankNode 0) (CAT "role") (strLit "r")) =
        .ok { graph := [] ++ [⟨.blankNode 0, CAT "role", strLit "r"⟩,
                             ⟨.blankNode 0, CAT "role", strLit "r"⟩],
              counter := 0 }) :=
  ⟨rfl, rfl, C6_no_dedup ⟨[], 0⟩ (strLit "r") rfl rfl⟩

/-- C7: when a single insertion step fails, the error is surfaced to the
caller at once: the observation, date-time and container-property
helpers all return the failing step's error itself, attempt no recovery
and produce no ok-state (so nothing further is inserted). -/
theorem C7_error_propagation (g : GraphBuilder) {s : Term} (p : Term) (o : Observation)
    (dt : String) (ci : ContainerInfo) (hs : s.isLiteralT = true) :
    g.insert_an_observation s p o = .error .invalidTriplePosition ∧
    g.insert_a_date_time s p dt = .error .invalidTriplePosition ∧
    g.insert_container_properties s ci = .error .invalidTriplePosition := by
  refine ⟨?_, ?_, ?_⟩ <;>
    simp [GraphBuilder.insert_an_observation, GraphBuilder.insert_a_date_time,
      GraphBuilder.insert_container_properties, GraphBuilder.generate_bnode_term,
      GraphBuilder.insert, hs]

/-- Closed witness for `C7_error_propagation`. -/
theorem C7_error_propagation_witness :
    (strLit "oops").isLiteralT = true ∧
    (GraphBuilder.insert_an_observation ⟨[], 0⟩ (strLit "oops") (QUDT "quantity") ⟨"mg", 1⟩ =
        .error .invalidTriplePosition ∧
      GraphBuilder.insert_a_date_time ⟨[], 0⟩ (strLit "oops") (ALLORES "AFX_0000622") "t" =
        .error .invalidTriplePosition ∧
      GraphBuilder.insert_container_properties ⟨[], 0⟩ (strLit "oops") ⟨"c1", "b1"⟩ =
        .error .invalidTriplePosition) :=
  ⟨rfl, C7_error_propagation ⟨[], 0⟩ (QUDT "quantity") ⟨"mg", 1⟩ "t" ⟨"c1", "b1"⟩ rfl⟩

/-- C3: an action whose name tag is not one of the enumerated kinds
(`AddAction`, `setTemperatureAction`) still produces exactly one
type-assertion triple, pointing at the generic fallback class
`allores:AFRE_0000001`, and the dispatch succeeds rather than failing. -/
theorem C3_fallback_dispatch (g : GraphBuilder) {s : Term} (a : Action)
    (hs : s.isLiteralT = false)
    (h1 : a.action_name ≠ .AddAction) (h2 : a.action_name ≠ .setTemperatureAction) :
    g.insert_action_type s a =
      .ok { graph := g.graph ++ [⟨s, RDF "type", ALLORES "AFRE_0000001"⟩],
            counter := g.counter } := by
  rw [insert_action_type_nf g a hs]
  cases h : a.action_name with
  | AddAction => exact absurd h h1
  | setTemperatureAction => exact absurd h h2
  | otherAction tag => simp [actionClass, h]

/-- Closed witness for `C3_fallback_dispatch`. -/
theorem C3_fallback_dispatch_witness :
    (Term.blankNode 0).isLiteralT = false ∧
    (ActionName.otherAction "washAction" ≠ .AddAction ∧
      ActionName.otherAction "washAction" ≠ .setTemperatureAction) ∧
    GraphBuilder.insert_action_type ⟨[], 0⟩ (.blankNode 0)
        { action_name := .otherAction "washAction", start_time := "", ending_time := "",
          method_name := "", equipment_name := "", sub_equipment_name := "",
          container_info := none, temperature_shaker := none,
          temperature_tumble_stirrer := none, speed_shaker := none, dispense_type := none,
          dispense_state := none, has_container_position_and_quantity := none,
          has_sample := none } =
      .ok { graph := [⟨.blankNode 0, RDF "type", ALLORES "AFRE_0000001"⟩], counter := 0 } :=
  ⟨rfl, ⟨by decide, by decide⟩,
    C3_fallback_dispatch ⟨[], 0⟩ _ rfl (by decide) (by decide)⟩

/-- C8: every action's start and ending timestamps are emitted as
literals typed `xsd:dateTime` with the input strings passed through
verbatim — the statement holds for arbitrary strings, so no lexical
validation or timezone normalization happens — and the action mapping
succeeds. -/
theorem C8_datetime_verbatim (g : GraphBuilder) (s : Term) (a : Action) :
    ∃ g', g.insert_an_action s a = .ok g' ∧
      (⟨.namedNode (synthUri g.counter), ALLORES "AFX_0000622",
        .literal a.start_time xsdDateTime⟩ : Triple) ∈ g'.graph ∧
      (⟨.namedNode (synthUri g.counter), ALLORES "AFR_0002423",
        .literal a.ending_time xsdDateTime⟩ : Triple) ∈ g'.graph := by
  refine ⟨_, insert_an_action_nf g s a, ?_, ?_⟩ <;>
    simp [action_triples]

/-- C9: in a full conversion, every `cat:hasBatch` triple has a minted
named action node as subject and the batch blank node as object — the
edge points from the child action to the parent batch, never the
reverse — and there is exactly one such edge per action of the batch. -/
theorem C9_hasBatch_direction (b : Batch) :
    ∃ g', (GraphBuilder.new >>= fun g => g.insert_a_batch b) = .ok g' ∧
      g'.graph.countP (fun t => t.pred == CAT "hasBatch") = b.actions.length ∧
      ∀ t ∈ g'.graph, t.pred = CAT "hasBatch" →
        t.obj = .blankNode 0 ∧ ∃ k, t.subj = .namedNode (synthUri k) := by
  have hrun : (GraphBuilder.new >>= fun g => g.insert_a_batch b) =
      .ok { graph := batch_triples 0 b, counter := batch_mints b } := by
    have h := insert_a_batch_nf ⟨[], 0⟩ b
    simpa using h
  refine ⟨_, hrun, ?_, ?_⟩
  · have e7 : ((RDF "type" : Term) == CAT "hasBatch") = false := by decide
    have e8 : ((SCHEMA "name" : Term) == CAT "hasBatch") = false := by decide
    simp [batch_triples, List.countP_append, List.countP_cons, e7, e8,
      (actions_hasBatch (.blankNode 0) b.actions 1).1]
  · intro t ht hb
    simp only [batch_triples, List.mem_append, List.mem_cons, List.not_mem_nil,
      or_false] at ht
    rcases ht with (rfl | rfl) | h
    · have hb2 : RDF "type" = CAT "hasBatch" := hb
      exact absurd hb2 (by decide)
    · have hb2 : SCHEMA "name" = CAT "hasBatch" := hb
      exact absurd hb2 (by decide)
    · exact (actions_hasBatch (.blankNode 0) b.actions 1).2 t h hb

/-- C2 counterexample: the scenario batch does NOT produce only the five
triples the claim enumerates — the graph also carries the method-name
triple (`allores:AFR_0001606`, from a mandatory field), and the action
node is a named (URI) node, not a blank node: every `cat:hasBatch`
triple has a named subject. -/
theorem C2_counterexample :
    batchB1run = .ok { graph := batchB1triples, counter := 2 } ∧
    (⟨.namedNode (synthUri 1), ALLORES "AFR_0001606", strLit ""⟩ : Triple) ∈ batchB1triples ∧
    (batchB1triples.all fun t => !(t.pred == CAT "hasBatch") || t.subj.isNamed) = true ∧
    batchB1triples.length = 9 := by
  refine ⟨by rfl, by decide, by decide, by decide⟩

/-- C2 amended: the scenario batch produces exactly nine triples — the
batch blank node's type and name (`"B-1"`) triples; a fresh URI (named)
action node linked to the batch via `cat:hasBatch`; verbatim
`xsd:dateTime` literals for the start AND the mandatory ending time;
string literals for the mandatory method, equipment and local-equipment
names; and the `AddAction` type assertion — and none of the unset
optional fields (container, samples, observations, positions) yields a
triple. -/
theorem C2_amended :
    batchB1run = .ok { graph := batchB1triples, counter := 2 } ∧
    (batchB1triples.all fun t =>
      !(t.pred == CAT "containerID") && !(t.pred == CAT "containerBarcode") &&
      !(t.pred == CAT "hasSample") && !(t.pred == CAT "hasContainerPositionAndQuantity") &&
      !(t.pred == QUDT "unit") && !(t.pred == QUDT "value")) = true := by
  refine ⟨by rfl, by decide⟩

/-- C4 counterexample: `actionC4` has `dispense_state` absent, yet the
conversion of its batch emits a triple mentioning that field's predicate
(`alloqual:AFQ_0000111`), because the same predicate also encodes a
sample item's mandatory physical state — so "absent field ⇒ no triple
mentioning that field's predicate" is false as stated. -/
theorem C4_counterexample :
    actionC4.dispense_state = none ∧
    (batchC4graph.any fun t => t.pred == ALLOQUAL "AFQ_0000111") = true :=
  ⟨rfl, by decide⟩

/-- C4 amended: an absent optional field produces no triple with that
field's predicate on the record's own node (the action node for
action-level fields, the sample-item node for the item's expected
datum), and synthesizes no node; a present field is mapped.  The same
predicate may still occur elsewhere in the graph from other fields
(`alloqual:AFQ_0000111` also encodes physical state; container id and
barcode are also emitted for a sample's mandatory container), and the
position/sample link predicates occur nowhere else, so their absence
holds graph-wide. -/
theorem C4_presence_policy_amended (g : GraphBuilder) (s : Term) (a : Action) :
    g.insert_an_action s a =
      .ok { graph := g.graph ++ action_triples g.counter s a,
            counter := g.counter + action_mints a } ∧
    (a.container_info = none → ∀ t ∈ action_triples g.counter s a,
      t.subj = Term.namedNode (synthUri g.counter) →
        ¬ t.pred = CAT "containerID" ∧ ¬ t.pred = CAT "containerBarcode") ∧
    (∀ ci, a.container_info = some ci →
      (⟨Term.namedNode (synthUri g.counter), CAT "containerID",
          strLit ci.container_id⟩ : Triple) ∈ action_triples g.counter s a ∧
      (⟨Term.namedNode (synthUri g.counter), CAT "containerBarcode",
          strLit ci.container_barcode⟩ : Triple) ∈ action_triples g.counter s a) ∧
    (a.temperature_shaker = none → ∀ t ∈ action_triples g.counter s a,
      t.subj = Term.namedNode (synthUri g.counter) →
        ¬ t.pred = CAT "temperatureShakerShape") ∧
    (∀ o, a.temperature_shaker = some o →
      (⟨Term.namedNode (synthUri g.counter), CAT "temperatureShakerShape",
          Term.blankNode (g.counter + 1)⟩ : Triple) ∈ action_triples g.counter s a) ∧
    (a.temperature_tumble_stirrer = none → ∀ t ∈ action_triples g.counter s a,
      t.subj = Term.namedNode (synthUri g.counter) →
        ¬ t.pred = CAT "temperatureTumbleStirrerShape") ∧
    (∀ o, a.temperature_tumble_stirrer = some o →
      (⟨Term.namedNode (synthUri g.counter), CAT "temperatureTumbleStirrerShape",
          Term.blankNode (g.counter + 1 + oMints a.temperature_shaker)⟩ : Triple)
        ∈ action_triples g.counter s a) ∧
    (a.speed_shaker = none → ∀ t ∈ action_triples g.counter s a,
      t.subj = Term.namedNode (synthUri g.counter) → ¬ t.pred = CAT "speedInRPM") ∧
    (∀ o, a.speed_shaker = some o →
      (⟨Term.namedNode (synthUri g.counter), CAT "speedInRPM",
          Term.blankNode (g.counter + 1 + oMints a.temperature_shaker
            + oMints a.temperature_tumble_stirrer)⟩ : Triple)
        ∈ action_triples g.counter s a) ∧
    (a.dispense_type = none → ∀ t ∈ action_triples g.counter s a,
      t.subj = Term.namedNode (synthUri g.counter) → ¬ t.pred = CAT "dispenseType") ∧
    (∀ v, a.dispense_type = some v →
      (⟨Term.namedNode (synthUri g.counter), CAT "dispenseType", strLit v⟩ : Triple)
        ∈ action_triples g.counter s a) ∧
    (a.dispense_state = none → ∀ t ∈ action_triples g.counter s a,
      t.subj = Term.namedNode (synthUri g.counter) →
        ¬ t.pred = ALLOQUAL "AFQ_0000111") ∧
    (∀ v, a.dispense_state = some v →
      (⟨Term.namedNode (synthUri g.counter), ALLOQUAL "AFQ_0000111",
          strLit v⟩ : Triple) ∈ action_triples g.counter s a) ∧
    (a.has_container_position_and_quantity = none →
      ∀ t ∈ action_triples g.counter s a,
        ¬ t.pred = CAT "hasContainerPositionAndQuantity") ∧
    (∀ ps, a.has_container_position_and_quantity = some ps → ∀ cp ∈ ps, ∃ k,
      (⟨Term.namedNode (synthUri g.counter), CAT "hasContainerPositionAndQuantity",
          Term.blankNode k⟩ : Triple) ∈ action_triples g.counter s a) ∧
    (a.has_sample = none → ∀ t ∈ action_triples g.counter s a,
      ¬ t.pred = CAT "hasSample") ∧
    (∀ smp, a.has_sample = some smp → ∃ k,
      (⟨Term.namedNode (synthUri g.counter), CAT "hasSample",
          Term.blankNode k⟩ : Triple) ∈ action_triples g.counter s a) ∧
    (∀ (c' : Nat) (par : Term) (si : SampleItem),
      (si.expected_datum = none → ∀ t ∈ item_triples c' par si,
        t.subj = Term.blankNode c' → ¬ t.pred = CAT "expectedDatum") ∧
      (∀ e, si.expected_datum = some e →
        (⟨Term.blankNode c', CAT "expectedDatum", Term.blankNode (c' + 1)⟩ : Triple)
          ∈ item_triples c' par si)) ∧
    (a.temperature_shaker = none → a.temperature_tumble_stirrer = none →
      a.speed_shaker = none → a.has_container_position_and_quantity = none →
      a.has_sample = none → action_mints a = 1) := by
  refine ⟨insert_an_action_nf g s a, ?_, ?_, ?_, ?_, ?_, ?_, ?_, ?_, ?_, ?_, ?_, ?_,
    ?_, ?_, ?_, ?_, ?_, ?_⟩
  · intro hnone t ht hsub
    exact ⟨action_node_no_pred g.counter s a (by decide) (by decide) (by decide)
        (by decide) (by decide) (by decide) (by decide) (Or.inl hnone)
        (Or.inr (by decide)) (Or.inr (by decide)) (Or.inr (by decide))
        (Or.inr (by decide)) (Or.inr (by decide)) (Or.inr (by decide))
        (Or.inr (by decide)) t ht hsub,
      action_node_no_pred g.counter s a (by decide) (by decide) (by decide)
        (by decide) (by decide) (by decide) (by decide) (Or.inl hnone)
        (Or.inr (by decide)) (Or.inr (by decide)) (Or.inr (by decide))
        (Or.inr (by decide)) (Or.inr (by decide)) (Or.inr (by decide))
        (Or.inr (by decide)) t ht hsub⟩
  · intro ci hE
    constructor <;> simp [action_triples, optCprops_triples, cprops_triples, hE]
  · intro hnone
    exact action_node_no_pred g.counter s a (by decide) (by decide) (by decide)
      (by decide) (by decide) (by decide) (by decide) (Or.inr (by decide))
      (Or.inl hnone) (Or.inr (by decide)) (Or.inr (by decide)) (Or.inr (by decide))
      (Or.inr (by decide)) (Or.inr (by decide)) (Or.inr (by decide))
  · intro o hE
    simp [action_triples, optObs_triples, obs_triples, hE]
  · intro hnone
    exact action_node_no_pred g.counter s a (by decide) (by decide) (by decide)
      (by decide) (by decide) (by decide) (by decide) (Or.inr (by decide))
      (Or.inr (by decide)) (Or.inl hnone) (Or.inr (by decide)) (Or.inr (by decide))
      (Or.inr (by decide)) (Or.inr (by decide)) (Or.inr (by decide))
  · intro o hE
    simp [action_triples, optObs_triples, obs_triples, hE]
  · intro hnone
    exact action_node_no_pred g.counter s a (by decide) (by decide) (by decide)
      (by decide) (by decide) (by decide) (by decide) (Or.inr (by decide))
      (Or.inr (by decide)) (Or.inr (by decide)) (Or.inl hnone) (Or.inr (by decide))
      (Or.inr (by decide)) (Or.inr (by decide)) (Or.inr (by decide))
  · intro o hE
    simp [action_triples, optObs_triples, obs_triples, hE]
  · intro hnone
    exact action_node_no_pred g.counter s a (by decide) (by decide) (by decide)
      (by decide) (by decide) (by decide) (by decide) (Or.inr (by decide))
      (Or.inr (by decide)) (Or.inr (by decide)) (Or.inr (by decide)) (Or.inl hnone)
      (Or.inr (by decide)) (Or.inr (by decide)) (Or.inr (by decide))
  · intro v hE
    simp [action_triples, optLit_triples, hE]
  · intro hnone
    exact action_node_no_pred g.counter s a (by decide) (by decide) (by decide)
      (by decide) (by decide) (by decide) (by decide) (Or.inr (by decide))
      (Or.inr (by decide)) (Or.inr (by decide)) (Or.inr (by decide))
      (Or.inr (by decide)) (Or.inl hnone) (Or.inr (by decide)) (Or.inr (by decide))
  · intro v hE
    simp [action_triples, optLit_triples, hE]
  · intro hnone t ht hpred
    exact (action_cpos_pred g.counter s a t ht hpred) hnone
  · intro ps hE cp hcp
    have hlink : ∃ k,
        (⟨Term.namedNode (synthUri g.counter), CAT "hasContainerPositionAndQuantity",
            Term.blankNode k⟩ : Triple) ∈
          cposList_triples (g.counter + 1 + oMints a.temperature_shaker
            + oMints a.temperature_tumble_stirrer + oMints a.speed_shaker)
            (Term.namedNode (synthUri g.counter)) ps :=
      cposList_link_mem ps (g.counter + 1 + oMints a.temperature_shaker
        + oMints a.temperature_tumble_stirrer + oMints a.speed_shaker) cp hcp
    rcases hlink with ⟨k, hk⟩
    refine ⟨k, ?_⟩
    simp only [action_triples, List.mem_append, hE, optCposList_triples]
    tauto
  · intro hnone t ht hpred
    exact (action_sample_pred g.counter s a t ht hpred) hnone
  · intro smp hE
    refine ⟨g.counter + 1 + oMints a.temperature_shaker
      + oMints a.temperature_tumble_stirrer + oMints a.speed_shaker
      + oCposMints a.has_container_position_and_quantity, ?_⟩
    simp [action_triples, optSample_triples, sample_triples, hE]
  · intro c' par si
    exact ⟨fun hE => item_expectedDatum_none hE,
      fun e hE => item_expectedDatum_some hE⟩
  · intro h1 h2 h3 h4 h5
    simp [action_mints, oMints, oCposMints, oSampleMints, h1, h2, h3, h4, h5]

/-- C1 counterexample: converting a batch with two minimal actions mints
exactly one distinct blank node (the batch node), while the claim's
enumeration (one blank node per action, sample level, chemical,
observation and container position) demands two — actions are minted as
URI (named) nodes, so the claimed equality fails. -/
theorem C1_counterexample :
    (blankIds batchC1graph).card = 1 ∧ batchClaimCount batchC1 = 2 ∧
    (blankIds batchC1graph).card ≠ batchClaimCount batchC1 := by
  refine ⟨by decide, by decide, by decide⟩

/-- C1 amended: for every batch, the number of distinct blank-node ids
in the produced graph equals one (the batch node) plus one per sample
level, one per observation and one per container position
(`batch_blanks`); actions and chemicals receive fresh URI (named) nodes
instead of blank nodes, and the cardinality equality entails that no two
distinct instances share a blank-node id. -/
theorem C1_blank_node_accounting (b : Batch) :
    ∃ g', (GraphBuilder.new >>= fun g => g.insert_a_batch b) = .ok g' ∧
      (blankIds g'.graph).card = batch_blanks b := by
  have hrun : (GraphBuilder.new >>= fun g => g.insert_a_batch b) =
      .ok { graph := batch_triples 0 b, counter := batch_mints b } := by
    have h := insert_a_batch_nf ⟨[], 0⟩ b
    simpa using h
  refine ⟨_, hrun, ?_⟩
  have hset : blankIds (batch_triples 0 b) = {0} ∪ actionsS 1 b.actions :=
    batch_blank 0 b
  have hcard := card_union_ranges 0 1 (1 + actions_mints b.actions)
    (show ({0} : Finset Nat) ⊆ Finset.Ico 0 1 from
      Finset.singleton_subset_iff.mpr (Finset.mem_Ico.mpr (by omega)))
    (actionsS_range b.actions 1)
  calc (blankIds (batch_triples 0 b)).card
      = ({0} ∪ actionsS 1 b.actions).card := by rw [hset]
    _ = ({0} : Finset Nat).card + (actionsS 1 b.actions).card := hcard
    _ = batch_blanks b := by
        rw [Finset.card_singleton, actionsS_card b.actions 1, batch_blanks]

/-- Closed witness for `C4_presence_policy_amended`: for `actionW` the
present temperature-shaker field is mapped and the absent dispense-type
field leaves no `cat:dispenseType` triple on the action node. -/
theorem C4_presence_policy_amended_witness :
    (⟨Term.namedNode (synthUri 0), CAT "temperatureShakerShape",
        Term.blankNode 1⟩ : Triple) ∈ action_triples 0 (Term.blankNode 9) actionW ∧
    (∀ t ∈ action_triples 0 (Term.blankNode 9) actionW,
      t.subj = Term.namedNode (synthUri 0) → ¬ t.pred = CAT "dispenseType") := by
  have h := C4_presence_policy_amended ⟨[], 0⟩ (Term.blankNode 9) actionW
  exact ⟨h.2.2.2.2.1 ⟨"degC", 20⟩ rfl, h.2.2.2.2.2.2.2.2.2.1 rfl⟩

end Synth
